import Mathlib

/-!
Shallow embedding of the nestify emulator core (CPU, bus, memory maps, PPU)
and verification of the specification claims against it.

Machine integers are modelled as `Nat` with explicit masking (`&&& 0xFF`,
`% 65536`, ...) where the Rust source relies on fixed-width wrapping
semantics; `isize`/`usize` casts use two's-complement reduction modulo
`2 ^ 64`.  Rust panics (`panic!`, `todo!`, `.expect`) are modelled by
`Option`, with `none` standing for an aborted computation.
-/

namespace Nestify

/-- Size of the `usize` value space on the 64-bit targets the emulator runs on. -/
def usizeSize : Nat := 2 ^ 64

/-- `Register::get_flag` (registers/mod.rs): `self.value & flag as u8 != 0`. -/
def getFlag (value flag : Nat) : Bool := value &&& flag != 0

/-- `Register::set_flag` (registers/mod.rs): set or clear the flag bit; the
Rust `!` on `u8` is complement within 8 bits, i.e. xor with `0xFF`. -/
def setFlag (value flag : Nat) (active : Bool) : Nat :=
  if active then value ||| flag else value &&& (flag ^^^ 0xFF)

/-! ## CPU status flags (registers/cpu/status.rs) -/

def carryFlag : Nat := 1 <<< 0
def zeroFlag : Nat := 1 <<< 1
def interruptDisableFlag : Nat := 1 <<< 2
def decimalModeFlag : Nat := 1 <<< 3
def breakFlag : Nat := 1 <<< 4
def unusedFlag : Nat := 1 <<< 5
def overflowFlag : Nat := 1 <<< 6
def negativeFlag : Nat := 1 <<< 7

/-! ## CPU state (cpu.rs `struct Cpu` plus the bus pieces it talks to)

The `Cpu` holds registers and references the `Bus` (which owns the
`CpuMemoryMap`: 2 KiB internal RAM plus the cartridge mapper) and the
`Clock` (cycle counter).  The mapper's CPU-side window is an arbitrary
read function, as it is cartridge data behind the `Mapper` trait. -/

structure CpuState where
  registerA : Nat
  registerX : Nat
  registerY : Nat
  status : Nat
  stackPointer : Nat
  programCounter : Nat
  /-- `CpuMemoryMap.internal_ram`: 2 KiB, indexed `0 ..= 0x7FF`. -/
  internalRam : Nat → Nat
  /-- Cartridge mapper CPU-side reads for `$4020..=$FFFF`. -/
  mapperPrg : Nat → Nat
  /-- `Bus.nmi_interrupt : Option<()>` as a Bool latch. -/
  nmiLatch : Bool
  /-- `Clock.cycles`; `Clock::tick(n)` adds `n` (it also advances the PPU,
  which the CPU-side machine does not track). -/
  cycles : Nat

/-- `CpuMemoryMap::read` (memorymap/cpu.rs): internal RAM below `$2000`
(masked by `0x7FF`), mapper window from `$4020`; anything else panics. -/
def cpuMapRead (s : CpuState) (address : Nat) : Option Nat :=
  if address ≤ 0x1FFF then some (s.internalRam (address &&& 0x7FF))
  else if 0x4020 ≤ address ∧ address ≤ 0xFFFF then some (s.mapperPrg address)
  else none

/-- `CpuMemoryMap::write` (memorymap/cpu.rs): RAM below `$2000`; writes into
`$8000..=$FFFF` panic ("Attempt to write into PRG-ROM"); others are dropped. -/
def cpuMapWrite (s : CpuState) (address data : Nat) : Option CpuState :=
  if address ≤ 0x1FFF then
    some { s with internalRam := fun a =>
      if a = address &&& 0x7FF then data else s.internalRam a }
  else if 0x8000 ≤ address ∧ address ≤ 0xFFFF then none
  else some s

/-- `impl Memory for Cpu`, `read` (cpu.rs): RAM region is forwarded to the
CPU memory map already masked by `0x7FF`; `$2000..=$3FFF` and
`$4000..=$4017` are unfinished `todo!` arms (a panic, hence `none`);
`$4018..=$401F` panics; `$4020..=$FFFF` goes to the memory map. -/
def cpuRead (s : CpuState) (address : Nat) : Option Nat :=
  if address ≤ 0x1FFF then cpuMapRead s (address &&& 0x7FF)
  else if address ≤ 0x3FFF then none
  else if address ≤ 0x4017 then none
  else if address ≤ 0x401F then none
  else cpuMapRead s address

/-- `impl Memory for Cpu`, `write` (cpu.rs): same shape as `read`. -/
def cpuWrite (s : CpuState) (address data : Nat) : Option CpuState :=
  if address ≤ 0x1FFF then cpuMapWrite s (address &&& 0x7FF) data
  else if address ≤ 0x3FFF then none
  else if address ≤ 0x4017 then none
  else if address ≤ 0x401F then none
  else cpuMapWrite s address data

/-- `Memory::read_u16` (memory.rs): little-endian pair of byte reads, second
address wrapping in `u16`. -/
def cpuReadU16 (s : CpuState) (address : Nat) : Option Nat := do
  let lo ← cpuRead s address
  let hi ← cpuRead s ((address + 1) % 65536)
  pure (lo + 256 * hi)

/-- `Cpu::push_stack`: store at `$0100 + S`, then decrement S (wrapping u8). -/
def pushStack (s : CpuState) (value : Nat) : Option CpuState := do
  let s ← cpuWrite s (0x100 + s.stackPointer) value
  pure { s with stackPointer := (s.stackPointer + 255) % 256 }

/-- `Cpu::pop_stack`: increment S (wrapping u8), then load from `$0100 + S`. -/
def popStack (s : CpuState) : Option (Nat × CpuState) := do
  let s := { s with stackPointer := (s.stackPointer + 1) % 256 }
  let v ← cpuRead s (0x100 + s.stackPointer)
  pure (v, s)

/-- `Cpu::is_page_cross`. -/
def isPageCross (page1 page2 : Nat) : Bool :=
  (page1 &&& 0xFF00) != (page2 &&& 0xFF00)

/-- `enum AddressingMode` (cpu.rs). -/
inductive AddressingMode where
  | Implicit
  | Accumulator
  | Immediate
  | ZeroPage
  | ZeroPageX
  | ZeroPageY
  | Relative
  | Absolute
  | AbsoluteX
  | AbsoluteY
  | Indirect
  | IndexedIndirect
  | IndirectIndexed
deriving DecidableEq, Inhabited

/-- `Cpu::get_memory_data` (cpu.rs), in the `use_disassembler = false`
configuration (the trace-formatting branches do no work then).  The outer
`Option` is a panicking memory read; the inner `Option` is the function's
Rust `Option<(u16, bool)>` result. -/
def getMemoryData (s : CpuState) (addressingMode : AddressingMode) :
    Option (Option (Nat × Bool)) :=
  match addressingMode with
  | .Implicit => some none
  | .Accumulator => some none
  | .Immediate => some (some (s.programCounter, false))
  | .ZeroPage => do
      let memoryPointer ← cpuRead s s.programCounter
      pure (some (memoryPointer, false))
  | .ZeroPageX => do
      let pointer ← cpuRead s s.programCounter
      let memoryPointer := (pointer + s.registerX) % 256
      pure (some (memoryPointer, isPageCross pointer memoryPointer))
  | .ZeroPageY => do
      let pointer ← cpuRead s s.programCounter
      let memoryPointer := (pointer + s.registerY) % 256
      pure (some (memoryPointer, isPageCross pointer memoryPointer))
  | .Relative => do
      let offset ← cpuRead s s.programCounter
      pure (some (offset, false))
  | .Absolute => do
      let memoryPointer ← cpuReadU16 s s.programCounter
      pure (some (memoryPointer, false))
  | .AbsoluteX => do
      let pointer ← cpuReadU16 s s.programCounter
      let memoryPointer := (pointer + s.registerX) % 65536
      pure (some (memoryPointer, isPageCross pointer memoryPointer))
  | .AbsoluteY => do
      let pointer ← cpuReadU16 s s.programCounter
      let memoryPointer := (pointer + s.registerY) % 65536
      pure (some (memoryPointer, isPageCross pointer memoryPointer))
  | .Indirect => do
      let pointer ← cpuReadU16 s s.programCounter
      let lo := pointer % 256
      let hi := pointer / 256
      let hibytePointer := ((lo + 1) % 256) + 256 * hi
      let mpLo ← cpuRead s pointer
      let mpHi ← cpuRead s hibytePointer
      pure (some (mpLo + 256 * mpHi, false))
  | .IndexedIndirect => do
      let operand ← cpuRead s s.programCounter
      let pointer := ((operand + s.registerX) % 256) &&& 0xFF
      let lo ← cpuRead s pointer
      let hi ← cpuRead s (((pointer + 1) % 65536) &&& 0xFF)
      pure (some (lo + 256 * hi, false))
  | .IndirectIndexed => do
      let pointer ← cpuRead s s.programCounter
      let lo ← cpuRead s pointer
      let hi ← cpuRead s (((pointer + 1) % 65536) &&& 0xFF)
      let derefPointer := lo + 256 * hi
      let memoryPointer := (derefPointer + s.registerY) % 65536
      pure (some (memoryPointer, isPageCross derefPointer memoryPointer))

/-- `Cpu::execute_adc` (cpu.rs).  The additions are performed in `u16`
(values at most `255 + 255 + 1`, so the explicit reductions are inert);
the Rust `!` on `u16` is xor with `0xFFFF`. -/
def executeAdc (addressingMode : AddressingMode) (s : CpuState) :
    Option CpuState := do
  let md ← getMemoryData s addressingMode
  let (memoryPointer, additionalCycle) ← md
  let a := s.registerA
  let m ← cpuRead s memoryPointer
  let c := if getFlag s.status carryFlag then 1 else 0
  let result := ((a + m) % 65536 + c) % 65536
  let overflow := ((a ^^^ result) &&& ((a ^^^ m) ^^^ 0xFFFF) &&& 0x80) == 0x80
  let st := setFlag s.status carryFlag (result > 255)
  let st := setFlag st negativeFlag ((result % 256) &&& 0x80 == 0x80)
  let st := setFlag st zeroFlag (result % 256 == 0)
  let st := setFlag st overflowFlag overflow
  let s := { s with status := st, registerA := result % 256 }
  pure (if additionalCycle then { s with cycles := s.cycles + 1 } else s)

/-- `Cpu::execute_jmp` (cpu.rs). -/
def executeJmp (addressingMode : AddressingMode) (s : CpuState) :
    Option CpuState := do
  let md ← getMemoryData s addressingMode
  let (memoryPointer, _) ← md
  pure { s with programCounter := memoryPointer }

/-- `Cpu::execute_nop` (cpu.rs): resolves the addressing mode (whose reads
can panic) and does nothing else. -/
def executeNop (addressingMode : AddressingMode) (s : CpuState) :
    Option CpuState := do
  let _ ← getMemoryData s addressingMode
  pure s

/-- `struct Instruction` (cpu.rs). -/
structure Instruction where
  opcode : Nat
  name : String
  bytes : Nat
  cycles : Nat
  addressingMode : AddressingMode
deriving Inhabited, DecidableEq

/-- The mnemonic dispatch inside `Cpu::fetch` (cpu.rs), restricted to the
mnemonics the claims exercise; the remaining arms dispatch to the
corresponding `execute_*` methods in the source and are outside the
embedded instruction subset. -/
def executeByName (name : String) (addressingMode : AddressingMode)
    (s : CpuState) : Option CpuState :=
  match name with
  | "ADC" => executeAdc addressingMode s
  | "JMP" => executeJmp addressingMode s
  | "NOP" => executeNop addressingMode s
  | _ => none

/-- The 256-entry `static INSTRUCTIONS` table (cpu.rs), in source order,
split into eight 32-entry segments; `Cpu::fetch` indexes the
concatenation with the opcode byte (`u8`, so indexing cannot fail). -/
def instructionsPart0 : List Instruction := [
{ opcode := 0x00, name := "BRK", bytes := 1, cycles := 7, addressingMode := .Implicit },
  { opcode := 0x01, name := "ORA", bytes := 2, cycles := 6, addressingMode := .IndexedIndirect },
  { opcode := 0x02, name := "KIL", bytes := 1, cycles := 1, addressingMode := .Implicit },
  { opcode := 0x03, name := "SLO", bytes := 2, cycles := 8, addressingMode := .IndexedIndirect },
  { opcode := 0x04, name := "NOP", bytes := 2, cycles := 3, addressingMode := .ZeroPage },
  { opcode := 0x05, name := "ORA", bytes := 2, cycles := 3, addressingMode := .ZeroPage },
  { opcode := 0x06, name := "ASL", bytes := 2, cycles := 5, addressingMode := .ZeroPage },
  { opcode := 0x07, name := "SLO", bytes := 2, cycles := 5, addressingMode := .ZeroPage },
  { opcode := 0x08, name := "PHP", bytes := 1, cycles := 3, addressingMode := .Implicit },
  { opcode := 0x09, name := "ORA", bytes := 2, cycles := 2, addressingMode := .Immediate },
  { opcode := 0x0A, name := "ASL", bytes := 1, cycles := 2, addressingMode := .Accumulator },
  { opcode := 0x0B, name := "ANC", bytes := 2, cycles := 2, addressingMode := .Immediate },
  { opcode := 0x0C, name := "NOP", bytes := 3, cycles := 4, addressingMode := .Absolute },
  { opcode := 0x0D, name := "ORA", bytes := 3, cycles := 4, addressingMode := .Absolute },
  { opcode := 0x0E, name := "ASL", bytes := 3, cycles := 6, addressingMode := .Absolute },
  { opcode := 0x0F, name := "SLO", bytes := 3, cycles := 6, addressingMode := .Absolute },
  { opcode := 0x10, name := "BPL", bytes := 2, cycles := 2, addressingMode := .Relative },
  { opcode := 0x11, name := "ORA", bytes := 2, cycles := 5, addressingMode := .IndirectIndexed },
  { opcode := 0x12, name := "KIL", bytes := 1, cycles := 1, addressingMode := .Implicit },
  { opcode := 0x13, name := "SLO", bytes := 2, cycles := 8, addressingMode := .IndirectIndexed },
  { opcode := 0x14, name := "NOP", bytes := 2, cycles := 4, addressingMode := .ZeroPageX },
  { opcode := 0x15, name := "ORA", bytes := 2, cycles := 4, addressingMode := .ZeroPageX },
  { opcode := 0x16, name := "ASL", bytes := 2, cycles := 6, addressingMode := .ZeroPageX },
  { opcode := 0x17, name := "SLO", bytes := 2, cycles := 6, addressingMode := .ZeroPageX },
  { opcode := 0x18, name := "CLC", bytes := 1, cycles := 2, addressingMode := .Implicit },
  { opcode := 0x19, name := "ORA", bytes := 3, cycles := 4, addressingMode := .AbsoluteY },
  { opcode := 0x1A, name := "NOP", bytes := 1, cycles := 2, addressingMode := .Implicit },
  { opcode := 0x1B, name := "SLO", bytes := 3, cycles := 7, addressingMode := .AbsoluteY },
  { opcode := 0x1C, name := "NOP", bytes := 3, cycles := 4, addressingMode := .AbsoluteX },
  { opcode := 0x1D, name := "ORA", bytes := 3, cycles := 4, addressingMode := .AbsoluteX },
  { opcode := 0x1E, name := "ASL", bytes := 3, cycles := 7, addressingMode := .AbsoluteX },
  { opcode := 0x1F, name := "SLO", bytes := 3, cycles := 7, addressingMode := .AbsoluteX }]

def instructionsPart1 : List Instruction := [
  { opcode := 0x20, name := "JSR", bytes := 3, cycles := 6, addressingMode := .Absolute },
  { opcode := 0x21, name := "AND", bytes := 2, cycles := 6, addressingMode := .IndexedIndirect },
  { opcode := 0x22, name := "KIL", bytes := 1, cycles := 1, addressingMode := .Implicit },
  { opcode := 0x23, name := "RLA", bytes := 2, cycles := 8, addressingMode := .IndexedIndirect },
  { opcode := 0x24, name := "BIT", bytes := 2, cycles := 3, addressingMode := .ZeroPage },
  { opcode := 0x25, name := "AND", bytes := 2, cycles := 3, addressingMode := .ZeroPage },
  { opcode := 0x26, name := "ROL", bytes := 2, cycles := 5, addressingMode := .ZeroPage },
  { opcode := 0x27, name := "RLA", bytes := 2, cycles := 5, addressingMode := .ZeroPage },
  { opcode := 0x28, name := "PLP", bytes := 1, cycles := 4, addressingMode := .Implicit },
  { opcode := 0x29, name := "AND", bytes := 2, cycles := 2, addressingMode := .Immediate },
  { opcode := 0x2A, name := "ROL", bytes := 1, cycles := 2, addressingMode := .Accumulator },
  { opcode := 0x2B, name := "ANC", bytes := 2, cycles := 2, addressingMode := .Immediate },
  { opcode := 0x2C, name := "BIT", bytes := 3, cycles := 4, addressingMode := .Absolute },
  { opcode := 0x2D, name := "AND", bytes := 3, cycles := 4, addressingMode := .Absolute },
  { opcode := 0x2E, name := "ROL", bytes := 3, cycles := 6, addressingMode := .Absolute },
  { opcode := 0x2F, name := "RLA", bytes := 3, cycles := 6, addressingMode := .Absolute },
  { opcode := 0x30, name := "BMI", bytes := 2, cycles := 2, addressingMode := .Relative },
  { opcode := 0x31, name := "AND", bytes := 2, cycles := 5, addressingMode := .IndirectIndexed },
  { opcode := 0x32, name := "KIL", bytes := 1, cycles := 1, addressingMode := .Implicit },
  { opcode := 0x33, name := "RLA", bytes := 2, cycles := 8, addressingMode := .IndirectIndexed },
  { opcode := 0x34, name := "NOP", bytes := 2, cycles := 4, addressingMode := .ZeroPageX },
  { opcode := 0x35, name := "AND", bytes := 2, cycles := 4, addressingMode := .ZeroPageX },
  { opcode := 0x36, name := "ROL", bytes := 2, cycles := 6, addressingMode := .ZeroPageX },
  { opcode := 0x37, name := "RLA", bytes := 2, cycles := 6, addressingMode := .ZeroPageX },
  { opcode := 0x38, name := "SEC", bytes := 1, cycles := 2, addressingMode := .Implicit },
  { opcode := 0x39, name := "AND", bytes := 3, cycles := 4, addressingMode := .AbsoluteY },
  { opcode := 0x3A, name := "NOP", bytes := 1, cycles := 2, addressingMode := .Implicit },
  { opcode := 0x3B, name := "RLA", bytes := 3, cycles := 7, addressingMode := .AbsoluteY },
  { opcode := 0x3C, name := "NOP", bytes := 3, cycles := 4, addressingMode := .AbsoluteX },
  { opcode := 0x3D, name := "AND", bytes := 3, cycles := 4, addressingMode := .AbsoluteX },
  { opcode := 0x3E, name := "ROL", bytes := 3, cycles := 7, addressingMode := .AbsoluteX },
  { opcode := 0x3F, name := "RLA", bytes := 3, cycles := 7, addressingMode := .AbsoluteX }]

def instructionsPart2 : List Instruction := [
  { opcode := 0x40, name := "RTI", bytes := 1, cycles := 6, addressingMode := .Implicit },
  { opcode := 0x41, name := "EOR", bytes := 2, cycles := 6, addressingMode := .IndexedIndirect },
  { opcode := 0x42, name := "KIL", bytes := 1, cycles := 1, addressingMode := .Implicit },
  { opcode := 0x43, name := "SRE", bytes := 2, cycles := 8, addressingMode := .IndexedIndirect },
  { opcode := 0x44, name := "NOP", bytes := 2, cycles := 3, addressingMode := .ZeroPage },
  { opcode := 0x45, name := "EOR", bytes := 2, cycles := 3, addressingMode := .ZeroPage },
  { opcode := 0x46, name := "LSR", bytes := 2, cycles := 5, addressingMode := .ZeroPage },
  { opcode := 0x47, name := "SRE", bytes := 2, cycles := 5, addressingMode := .ZeroPage },
  { opcode := 0x48, name := "PHA", bytes := 1, cycles := 3, addressingMode := .Implicit },
  { opcode := 0x49, name := "EOR", bytes := 2, cycles := 2, addressingMode := .Immediate },
  { opcode := 0x4A, name := "LSR", bytes := 1, cycles := 2, addressingMode := .Accumulator },
  { opcode := 0x4B, name := "ASR", bytes := 2, cycles := 2, addressingMode := .Immediate },
  { opcode := 0x4C, name := "JMP", bytes := 3, cycles := 3, addressingMode := .Absolute },
  { opcode := 0x4D, name := "EOR", bytes := 3, cycles := 4, addressingMode := .Absolute },
  { opcode := 0x4E, name := "LSR", bytes := 3, cycles := 6, addressingMode := .Absolute },
  { opcode := 0x4F, name := "SRE", bytes := 3, cycles := 6, addressingMode := .Absolute },
  { opcode := 0x50, name := "BVC", bytes := 2, cycles := 2, addressingMode := .Relative },
  { opcode := 0x51, name := "EOR", bytes := 2, cycles := 5, addressingMode := .IndirectIndexed },
  { opcode := 0x52, name := "KIL", bytes := 1, cycles := 1, addressingMode := .Implicit },
  { opcode := 0x53, name := "SRE", bytes := 2, cycles := 8, addressingMode := .IndirectIndexed },
  { opcode := 0x54, name := "NOP", bytes := 2, cycles := 4, addressingMode := .ZeroPageX },
  { opcode := 0x55, name := "EOR", bytes := 2, cycles := 4, addressingMode := .ZeroPageX },
  { opcode := 0x56, name := "LSR", bytes := 2, cycles := 6, addressingMode := .ZeroPageX },
  { opcode := 0x57, name := "SRE", bytes := 2, cycles := 6, addressingMode := .ZeroPageX },
  { opcode := 0x58, name := "CLI", bytes := 1, cycles := 2, addressingMode := .Implicit },
  { opcode := 0x59, name := "EOR", bytes := 3, cycles := 4, addressingMode := .AbsoluteY },
  { opcode := 0x5A, name := "NOP", bytes := 1, cycles := 2, addressingMode := .Implicit },
  { opcode := 0x5B, name := "SRE", bytes := 3, cycles := 7, addressingMode := .AbsoluteY },
  { opcode := 0x5C, name := "NOP", bytes := 3, cycles := 4, addressingMode := .AbsoluteX },
  { opcode := 0x5D, name := "EOR", bytes := 3, cycles := 4, addressingMode := .AbsoluteX },
  { opcode := 0x5E, name := "LSR", bytes := 3, cycles := 7, addressingMode := .AbsoluteX },
  { opcode := 0x5F, name := "SRE", bytes := 3, cycles := 7, addressingMode := .AbsoluteX }]

def instructionsPart3 : List Instruction := [
  { opcode := 0x60, name := "RTS", bytes := 1, cycles := 6, addressingMode := .Implicit },
  { opcode := 0x61, name := "ADC", bytes := 2, cycles := 6, addressingMode := .IndexedIndirect },
  { opcode := 0x62, name := "KIL", bytes := 1, cycles := 1, addressingMode := .Implicit },
  { opcode := 0x63, name := "RRA", bytes := 2, cycles := 8, addressingMode := .IndexedIndirect },
  { opcode := 0x64, name := "NOP", bytes := 2, cycles := 3, addressingMode := .ZeroPage },
  { opcode := 0x65, name := "ADC", bytes := 2, cycles := 3, addressingMode := .ZeroPage },
  { opcode := 0x66, name := "ROR", bytes := 2, cycles := 5, addressingMode := .ZeroPage },
  { opcode := 0x67, name := "RRA", bytes := 2, cycles := 5, addressingMode := .ZeroPage },
  { opcode := 0x68, name := "PLA", bytes := 1, cycles := 4, addressingMode := .Implicit },
  { opcode := 0x69, name := "ADC", bytes := 2, cycles := 2, addressingMode := .Immediate },
  { opcode := 0x6A, name := "ROR", bytes := 1, cycles := 2, addressingMode := .Accumulator },
  { opcode := 0x6B, name := "ARR", bytes := 2, cycles := 2, addressingMode := .Immediate },
  { opcode := 0x6C, name := "JMP", bytes := 3, cycles := 5, addressingMode := .Indirect },
  { opcode := 0x6D, name := "ADC", bytes := 3, cycles := 4, addressingMode := .Absolute },
  { opcode := 0x6E, name := "ROR", bytes := 3, cycles := 6, addressingMode := .Absolute },
  { opcode := 0x6F, name := "RRA", bytes := 3, cycles := 6, addressingMode := .Absolute },
  { opcode := 0x70, name := "BVS", bytes := 2, cycles := 2, addressingMode := .Relative },
  { opcode := 0x71, name := "ADC", bytes := 2, cycles := 5, addressingMode := .IndirectIndexed },
  { opcode := 0x72, name := "KIL", bytes := 1, cycles := 1, addressingMode := .Implicit },
  { opcode := 0x73, name := "RRA", bytes := 2, cycles := 8, addressingMode := .IndirectIndexed },
  { opcode := 0x74, name := "NOP", bytes := 2, cycles := 4, addressingMode := .ZeroPageX },
  { opcode := 0x75, name := "ADC", bytes := 2, cycles := 4, addressingMode := .ZeroPageX },
  { opcode := 0x76, name := "ROR", bytes := 2, cycles := 6, addressingMode := .ZeroPageX },
  { opcode := 0x77, name := "RRA", bytes := 2, cycles := 6, addressingMode := .ZeroPageX },
  { opcode := 0x78, name := "SEI", bytes := 1, cycles := 2, addressingMode := .Implicit },
  { opcode := 0x79, name := "ADC", bytes := 3, cycles := 4, addressingMode := .AbsoluteY },
  { opcode := 0x7A, name := "NOP", bytes := 1, cycles := 2, addressingMode := .Implicit },
  { opcode := 0x7B, name := "RRA", bytes := 3, cycles := 7, addressingMode := .AbsoluteY },
  { opcode := 0x7C, name := "NOP", bytes := 3, cycles := 4, addressingMode := .AbsoluteX },
  { opcode := 0x7D, name := "ADC", bytes := 3, cycles := 4, addressingMode := .AbsoluteX },
  { opcode := 0x7E, name := "ROR", bytes := 3, cycles := 7, addressingMode := .AbsoluteX },
  { opcode := 0x7F, name := "RRA", bytes := 3, cycles := 7, addressingMode := .AbsoluteX }]

def instructionsPart4 : List Instruction := [
  { opcode := 0x80, name := "NOP", bytes := 2, cycles := 2, addressingMode := .Immediate },
  { opcode := 0x81, name := "STA", bytes := 2, cycles := 6, addressingMode := .IndexedIndirect },
  { opcode := 0x82, name := "NOP", bytes := 2, cycles := 2, addressingMode := .Immediate },
  { opcode := 0x83, name := "SAX", bytes := 2, cycles := 6, addressingMode := .IndexedIndirect },
  { opcode := 0x84, name := "STY", bytes := 2, cycles := 3, addressingMode := .ZeroPage },
  { opcode := 0x85, name := "STA", bytes := 2, cycles := 3, addressingMode := .ZeroPage },
  { opcode := 0x86, name := "STX", bytes := 2, cycles := 3, addressingMode := .ZeroPage },
  { opcode := 0x87, name := "SAX", bytes := 2, cycles := 3, addressingMode := .ZeroPage },
  { opcode := 0x88, name := "DEY", bytes := 1, cycles := 2, addressingMode := .Implicit },
  { opcode := 0x89, name := "NOP", bytes := 2, cycles := 2, addressingMode := .Immediate },
  { opcode := 0x8A, name := "TXA", bytes := 1, cycles := 2, addressingMode := .Implicit },
  { opcode := 0x8B, name := "XAA", bytes := 2, cycles := 2, addressingMode := .Immediate },
  { opcode := 0x8C, name := "STY", bytes := 3, cycles := 4, addressingMode := .Absolute },
  { opcode := 0x8D, name := "STA", bytes := 3, cycles := 4, addressingMode := .Absolute },
  { opcode := 0x8E, name := "STX", bytes := 3, cycles := 4, addressingMode := .Absolute },
  { opcode := 0x8F, name := "SAX", bytes := 3, cycles := 4, addressingMode := .Absolute },
  { opcode := 0x90, name := "BCC", bytes := 2, cycles := 2, addressingMode := .Relative },
  { opcode := 0x91, name := "STA", bytes := 2, cycles := 6, addressingMode := .IndirectIndexed },
  { opcode := 0x92, name := "KIL", bytes := 1, cycles := 1, addressingMode := .Implicit },
  { opcode := 0x93, name := "AHX", bytes := 2, cycles := 6, addressingMode := .IndirectIndexed },
  { opcode := 0x94, name := "STY", bytes := 2, cycles := 4, addressingMode := .ZeroPageX },
  { opcode := 0x95, name := "STA", bytes := 2, cycles := 4, addressingMode := .ZeroPageX },
  { opcode := 0x96, name := "STX", bytes := 2, cycles := 4, addressingMode := .ZeroPageY },
  { opcode := 0x97, name := "SAX", bytes := 2, cycles := 4, addressingMode := .ZeroPageY },
  { opcode := 0x98, name := "TYA", bytes := 1, cycles := 2, addressingMode := .Implicit },
  { opcode := 0x99, name := "STA", bytes := 3, cycles := 5, addressingMode := .AbsoluteY },
  { opcode := 0x9A, name := "TXS", bytes := 1, cycles := 2, addressingMode := .Implicit },
  { opcode := 0x9B, name := "TAS", bytes := 3, cycles := 5, addressingMode := .AbsoluteY },
  { opcode := 0x9C, name := "SHY", bytes := 3, cycles := 5, addressingMode := .AbsoluteX },
  { opcode := 0x9D, name := "STA", bytes := 3, cycles := 5, addressingMode := .AbsoluteX },
  { opcode := 0x9E, name := "SHX", bytes := 3, cycles := 5, addressingMode := .AbsoluteY },
  { opcode := 0x9F, name := "AHX", bytes := 3, cycles := 5, addressingMode := .AbsoluteY }]

def instructionsPart5 : List Instruction := [
  { opcode := 0xA0, name := "LDY", bytes := 2, cycles := 2, addressingMode := .Immediate },
  { opcode := 0xA1, name := "LDA", bytes := 2, cycles := 6, addressingMode := .IndexedIndirect },
  { opcode := 0xA2, name := "LDX", bytes := 2, cycles := 2, addressingMode := .Immediate },
  { opcode := 0xA3, name := "LAX", bytes := 2, cycles := 6, addressingMode := .IndexedIndirect },
  { opcode := 0xA4, name := "LDY", bytes := 2, cycles := 3, addressingMode := .ZeroPage },
  { opcode := 0xA5, name := "LDA", bytes := 2, cycles := 3, addressingMode := .ZeroPage },
  { opcode := 0xA6, name := "LDX", bytes := 2, cycles := 3, addressingMode := .ZeroPage },
  { opcode := 0xA7, name := "LAX", bytes := 2, cycles := 3, addressingMode := .ZeroPage },
  { opcode := 0xA8, name := "TAY", bytes := 1, cycles := 2, addressingMode := .Implicit },
  { opcode := 0xA9, name := "LDA", bytes := 2, cycles := 2, addressingMode := .Immediate },
  { opcode := 0xAA, name := "TAX", bytes := 1, cycles := 2, addressingMode := .Implicit },
  { opcode := 0xAB, name := "LAX", bytes := 2, cycles := 2, addressingMode := .Immediate },
  { opcode := 0xAC, name := "LDY", bytes := 3, cycles := 4, addressingMode := .Absolute },
  { opcode := 0xAD, name := "LDA", bytes := 3, cycles := 4, addressingMode := .Absolute },
  { opcode := 0xAE, name := "LDX", bytes := 3, cycles := 4, addressingMode := .Absolute },
  { opcode := 0xAF, name := "LAX", bytes := 3, cycles := 4, addressingMode := .Absolute },
  { opcode := 0xB0, name := "BCS", bytes := 2, cycles := 2, addressingMode := .Relative },
  { opcode := 0xB1, name := "LDA", bytes := 2, cycles := 5, addressingMode := .IndirectIndexed },
  { opcode := 0xB2, name := "KIL", bytes := 1, cycles := 1, addressingMode := .Implicit },
  { opcode := 0xB3, name := "LAX", bytes := 2, cycles := 5, addressingMode := .IndirectIndexed },
  { opcode := 0xB4, name := "LDY", bytes := 2, cycles := 4, addressingMode := .ZeroPageX },
  { opcode := 0xB5, name := "LDA", bytes := 2, cycles := 4, addressingMode := .ZeroPageX },
  { opcode := 0xB6, name := "LDX", bytes := 2, cycles := 4, addressingMode := .ZeroPageY },
  { opcode := 0xB7, name := "LAX", bytes := 2, cycles := 4, addressingMode := .ZeroPageY },
  { opcode := 0xB8, name := "CLV", bytes := 1, cycles := 2, addressingMode := .Implicit },
  { opcode := 0xB9, name := "LDA", bytes := 3, cycles := 4, addressingMode := .AbsoluteY },
  { opcode := 0xBA, name := "TSX", bytes := 1, cycles := 2, addressingMode := .Implicit },
  { opcode := 0xBB, name := "LAS", bytes := 3, cycles := 4, addressingMode := .AbsoluteY },
  { opcode := 0xBC, name := "LDY", bytes := 3, cycles := 4, addressingMode := .AbsoluteX },
  { opcode := 0xBD, name := "LDA", bytes := 3, cycles := 4, addressingMode := .AbsoluteX },
  { opcode := 0xBE, name := "LDX", bytes := 3, cycles := 4, addressingMode := .AbsoluteY },
  { opcode := 0xBF, name := "LAX", bytes := 3, cycles := 4, addressingMode := .AbsoluteY }]

def instructionsPart6 : List Instruction := [
  { opcode := 0xC0, name := "CPY", bytes := 2, cycles := 2, addressingMode := .Immediate },
  { opcode := 0xC1, name := "CMP", bytes := 2, cycles := 6, addressingMode := .IndexedIndirect },
  { opcode := 0xC2, name := "NOP", bytes := 2, cycles := 2, addressingMode := .Immediate },
  { opcode := 0xC3, name := "DCP", bytes := 2, cycles := 8, addressingMode := .IndexedIndirect },
  { opcode := 0xC4, name := "CPY", bytes := 2, cycles := 3, addressingMode := .ZeroPage },
  { opcode := 0xC5, name := "CMP", bytes := 2, cycles := 3, addressingMode := .ZeroPage },
  { opcode := 0xC6, name := "DEC", bytes := 2, cycles := 5, addressingMode := .ZeroPage },
  { opcode := 0xC7, name := "DCP", bytes := 2, cycles := 5, addressingMode := .ZeroPage },
  { opcode := 0xC8, name := "INY", bytes := 1, cycles := 2, addressingMode := .Implicit },
  { opcode := 0xC9, name := "CMP", bytes := 2, cycles := 2, addressingMode := .Immediate },
  { opcode := 0xCA, name := "DEX", bytes := 1, cycles := 2, addressingMode := .Implicit },
  { opcode := 0xCB, name := "AXS", bytes := 2, cycles := 2, addressingMode := .Immediate },
  { opcode := 0xCC, name := "CPY", bytes := 3, cycles := 4, addressingMode := .Absolute },
  { opcode := 0xCD, name := "CMP", bytes := 3, cycles := 4, addressingMode := .Absolute },
  { opcode := 0xCE, name := "DEC", bytes := 3, cycles := 6, addressingMode := .Absolute },
  { opcode := 0xCF, name := "DCP", bytes := 3, cycles := 6, addressingMode := .Absolute },
  { opcode := 0xD0, name := "BNE", bytes := 2, cycles := 2, addressingMode := .Relative },
  { opcode := 0xD1, name := "CMP", bytes := 2, cycles := 5, addressingMode := .IndirectIndexed },
  { opcode := 0xD2, name := "KIL", bytes := 1, cycles := 1, addressingMode := .Implicit },
  { opcode := 0xD3, name := "DCP", bytes := 2, cycles := 8, addressingMode := .IndirectIndexed },
  { opcode := 0xD4, name := "NOP", bytes := 2, cycles := 4, addressingMode := .ZeroPageX },
  { opcode := 0xD5, name := "CMP", bytes := 2, cycles := 4, addressingMode := .ZeroPageX },
  { opcode := 0xD6, name := "DEC", bytes := 2, cycles := 6, addressingMode := .ZeroPageX },
  { opcode := 0xD7, name := "DCP", bytes := 2, cycles := 6, addressingMode := .ZeroPageX },
  { opcode := 0xD8, name := "CLD", bytes := 1, cycles := 2, addressingMode := .Implicit },
  { opcode := 0xD9, name := "CMP", bytes := 3, cycles := 4, addressingMode := .AbsoluteY },
  { opcode := 0xDA, name := "NOP", bytes := 1, cycles := 2, addressingMode := .Implicit },
  { opcode := 0xDB, name := "DCP", bytes := 3, cycles := 7, addressingMode := .AbsoluteY },
  { opcode := 0xDC, name := "NOP", bytes := 3, cycles := 4, addressingMode := .AbsoluteX },
  { opcode := 0xDD, name := "CMP", bytes := 3, cycles := 4, addressingMode := .AbsoluteX },
  { opcode := 0xDE, name := "DEC", bytes := 3, cycles := 7, addressingMode := .AbsoluteX },
  { opcode := 0xDF, name := "DCP", bytes := 3, cycles := 7, addressingMode := .AbsoluteX }]

def instructionsPart7 : List Instruction := [
  { opcode := 0xE0, name := "CPX", bytes := 2, cycles := 2, addressingMode := .Immediate },
  { opcode := 0xE1, name := "SBC", bytes := 2, cycles := 6, addressingMode := .IndexedIndirect },
  { opcode := 0xE2, name := "NOP", bytes := 2, cycles := 2, addressingMode := .Immediate },
  { opcode := 0xE3, name := "ISC", bytes := 2, cycles := 8, addressingMode := .IndexedIndirect },
  { opcode := 0xE4, name := "CPX", bytes := 2, cycles := 3, addressingMode := .ZeroPage },
  { opcode := 0xE5, name := "SBC", bytes := 2, cycles := 3, addressingMode := .ZeroPage },
  { opcode := 0xE6, name := "INC", bytes := 2, cycles := 5, addressingMode := .ZeroPage },
  { opcode := 0xE7, name := "ISC", bytes := 2, cycles := 5, addressingMode := .ZeroPage },
  { opcode := 0xE8, name := "INX", bytes := 1, cycles := 2, addressingMode := .Implicit },
  { opcode := 0xE9, name := "SBC", bytes := 2, cycles := 2, addressingMode := .Immediate },
  { opcode := 0xEA, name := "NOP", bytes := 1, cycles := 2, addressingMode := .Implicit },
  { opcode := 0xEB, name := "SBC", bytes := 2, cycles := 2, addressingMode := .Immediate },
  { opcode := 0xEC, name := "CPX", bytes := 3, cycles := 4, addressingMode := .Absolute },
  { opcode := 0xED, name := "SBC", bytes := 3, cycles := 4, addressingMode := .Absolute },
  { opcode := 0xEE, name := "INC", bytes := 3, cycles := 6, addressingMode := .Absolute },
  { opcode := 0xEF, name := "ISC", bytes := 3, cycles := 6, addressingMode := .Absolute },
  { opcode := 0xF0, name := "BEQ", bytes := 2, cycles := 2, addressingMode := .Relative },
  { opcode := 0xF1, name := "SBC", bytes := 2, cycles := 5, addressingMode := .IndirectIndexed },
  { opcode := 0xF2, name := "KIL", bytes := 1, cycles := 1, addressingMode := .Implicit },
  { opcode := 0xF3, name := "ISC", bytes := 2, cycles := 8, addressingMode := .IndirectIndexed },
  { opcode := 0xF4, name := "NOP", bytes := 2, cycles := 4, addressingMode := .ZeroPageX },
  { opcode := 0xF5, name := "SBC", bytes := 2, cycles := 4, addressingMode := .ZeroPageX },
  { opcode := 0xF6, name := "INC", bytes := 2, cycles := 6, addressingMode := .ZeroPageX },
  { opcode := 0xF7, name := "ISC", bytes := 2, cycles := 6, addressingMode := .ZeroPageX },
  { opcode := 0xF8, name := "SED", bytes := 1, cycles := 2, addressingMode := .Implicit },
  { opcode := 0xF9, name := "SBC", bytes := 3, cycles := 4, addressingMode := .AbsoluteY },
  { opcode := 0xFA, name := "NOP", bytes := 1, cycles := 2, addressingMode := .Implicit },
  { opcode := 0xFB, name := "ISC", bytes := 3, cycles := 7, addressingMode := .AbsoluteY },
  { opcode := 0xFC, name := "NOP", bytes := 3, cycles := 4, addressingMode := .AbsoluteX },
  { opcode := 0xFD, name := "SBC", bytes := 3, cycles := 4, addressingMode := .AbsoluteX },
  { opcode := 0xFE, name := "INC", bytes := 3, cycles := 7, addressingMode := .AbsoluteX },
  { opcode := 0xFF, name := "ISC", bytes := 3, cycles := 7, addressingMode := .AbsoluteX }]

def INSTRUCTIONS : List Instruction :=
  instructionsPart0 ++ instructionsPart1 ++ instructionsPart2 ++ instructionsPart3 ++
  instructionsPart4 ++ instructionsPart5 ++ instructionsPart6 ++ instructionsPart7

/-- `Cpu::fetch` (cpu.rs): read the opcode, advance PC, poll the bus NMI
latch — `Bus::poll_interrupt` is `self.nmi_interrupt.take()`, and the
handler body in the source is an empty `TODO` block, so the latch is
consumed and nothing else happens — execute, tick the instruction's base
cycles, and advance PC by the operand length when the instruction did not
rewrite it. -/
def fetch (s : CpuState) : Option CpuState := do
  let opcodeByte ← cpuRead s s.programCounter
  let instr := INSTRUCTIONS.getD opcodeByte default
  let s := { s with programCounter := (s.programCounter + 1) % 65536 }
  let currentProgramCounter := s.programCounter
  let s := { s with nmiLatch := false }
  let s ← executeByName instr.name instr.addressingMode s
  let s := { s with cycles := s.cycles + instr.cycles }
  if currentProgramCounter = s.programCounter then
    pure { s with programCounter := (s.programCounter + (instr.bytes - 1)) % 65536 }
  else
    pure s

/-! ## PPU flags

Status bits from registers/ppu/status.rs, controller bits from
registers/ppu/controller.rs, mask bits from registers/ppu/mask.rs. -/

def spriteZeroHitFlag : Nat := 1 <<< 6
def vblankFlag : Nat := 1 <<< 7

/-- Modelled from the spec: the `PpuStatusRegisterFlags` enum in
registers/ppu/status.rs lacks the `SpriteOverflow` variant that
`Ppu::tick` and `Ppu::reset_vblank` use; the spec's PPUSTATUS layout
("clear VBlank, sprite-zero-hit, and sprite-overflow", status bits 5-7)
places sprite overflow at bit 5. -/
def spriteOverflowFlag : Nat := 1 <<< 5

def addressIncrementFlag : Nat := 1 <<< 2
def spritesPatternTableFlag : Nat := 1 <<< 3
def backgroundPatternTableFlag : Nat := 1 <<< 4
def generateVBlankNMIFlag : Nat := 1 <<< 7

def showBackgroundLeftmostFlag : Nat := 1 <<< 1
def showSpritesLeftmostFlag : Nat := 1 <<< 2
def showBackgroundFlag : Nat := 1 <<< 3
def showSpritesFlag : Nat := 1 <<< 4

/-- `enum Mirroring` (ppu/mod.rs). -/
inductive Mirroring where
  | Horizontal
  | Vertical
  | FourScreen
deriving DecidableEq, Inhabited

/-- `PpuMemoryMap` (memorymap/ppu.rs): two 1-KiB nametables stored as a
4-KiB array, 32 bytes of palette RAM, 256 bytes of OAM, and the mapper's
CHR region (`get_chr_rom`, an 8-KiB NROM CHR bank). -/
structure PpuMemoryMap where
  nametable : Nat → Nat
  palette : Nat → Nat
  oam : Nat → Nat
  chr : Nat → Nat

/-- `PpuMemoryMap::read` (memorymap/ppu.rs), arms in source order.  In the
last palette arm the Rust expression `address & 0x3F1F - 0x3F00` parses as
`address & (0x3F1F - 0x3F00)` because `-` binds tighter than `&`.
Addresses past `$3FFF` panic. -/
def ppuMapRead (m : PpuMemoryMap) (address : Nat) : Option Nat :=
  if address ≤ 0x1FFF then some (m.chr address)
  else if address ≤ 0x2FFF then some (m.nametable (address - 0x2000))
  else if address ≤ 0x3EFF then some (m.nametable (address - 0x3000))
  else if address = 0x3F10 ∨ address = 0x3F14 ∨ address = 0x3F18 ∨ address = 0x3F1C then
    some (m.palette (address - 0x3F10))
  else if address ≤ 0x3FFF then some (m.palette (address &&& (0x3F1F - 0x3F00)))
  else none

/-- `PpuMemoryMap::write` (memorymap/ppu.rs), same arm structure as `read`. -/
def ppuMapWrite (m : PpuMemoryMap) (address data : Nat) : Option PpuMemoryMap :=
  if address ≤ 0x1FFF then
    some { m with chr := fun a => if a = address then data else m.chr a }
  else if address ≤ 0x2FFF then
    some { m with nametable := fun a =>
      if a = address - 0x2000 then data else m.nametable a }
  else if address ≤ 0x3EFF then
    some { m with nametable := fun a =>
      if a = address - 0x3000 then data else m.nametable a }
  else if address = 0x3F10 ∨ address = 0x3F14 ∨ address = 0x3F18 ∨ address = 0x3F1C then
    some { m with palette := fun a =>
      if a = address - 0x3F10 then data else m.palette a }
  else if address ≤ 0x3FFF then
    some { m with palette := fun a =>
      if a = address &&& (0x3F1F - 0x3F00) then data else m.palette a }
  else none

/-- `ScreenState` (ppu/screenstate.rs). -/
structure ScreenState where
  bgNextTileId : Nat
  bgNextTileAttribute : Nat
  bgNextTileLsb : Nat
  bgNextTileMsb : Nat
  bgShiftPatternLo : Nat
  bgShiftPatternHi : Nat
  bgShiftAttributeLo : Nat
  bgShiftAttributeHi : Nat
  spriteShiftPatternLo : Nat → Nat
  spriteShiftPatternHi : Nat → Nat
  spriteCount : Nat
  spriteZeroOccured : Bool
  spriteZeroRendering : Bool

/-- `ScreenState::new`. -/
def ScreenState.new : ScreenState :=
  { bgNextTileId := 0, bgNextTileAttribute := 0, bgNextTileLsb := 0,
    bgNextTileMsb := 0, bgShiftPatternLo := 0, bgShiftPatternHi := 0,
    bgShiftAttributeLo := 0, bgShiftAttributeHi := 0,
    spriteShiftPatternLo := fun _ => 0, spriteShiftPatternHi := fun _ => 0,
    spriteCount := 0, spriteZeroOccured := false, spriteZeroRendering := false }

/-- `ScreenBuffer` (ppu/screenbuffer.rs): `width` and the backing vector of
`width * height` bytes, kept as its length plus a total index function. -/
structure ScreenBuffer where
  width : Nat
  size : Nat
  pixels : Nat → Nat

/-- `ScreenBuffer::set_pixel`: computes the flattened index in `usize`
arithmetic (wrapping on overflow) and stores only when it is within the
vector; otherwise the write is silently discarded. -/
def ScreenBuffer.setPixel (b : ScreenBuffer) (x y color : Nat) : ScreenBuffer :=
  if ((y * b.width) % usizeSize + x) % usizeSize < b.size then
    { b with pixels := fun i =>
        if i = ((y * b.width) % usizeSize + x) % usizeSize then color
        else b.pixels i }
  else b

/-- `isize` to `usize` cast: two's-complement reduction modulo `2 ^ 64`. -/
def usizeOfInt (i : Int) : Nat := (i % (usizeSize : Int)).toNat

/-! ## PPU VRAM register (registers/ppu/vram.rs)

The register is a bare `u16`; every setter masks the stored address to 14
bits (`& 0x3FFF`), and the Rust `!mask` is complement within `u16`. -/

def vramSet (value : Nat) : Nat := value &&& 0x3FFF

def vramGetCoarseX (address : Nat) : Nat := address &&& 0x1F

def vramSetCoarseX (address coarseX : Nat) : Nat :=
  (address &&& (0x1F ^^^ 0xFFFF) &&& 0x3FFF) ||| ((coarseX <<< 0) &&& 0x1F)

def vramGetCoarseY (address : Nat) : Nat := (address >>> 5) &&& 0x1F

def vramSetCoarseY (address coarseY : Nat) : Nat :=
  (address &&& (0x3E0 ^^^ 0xFFFF) &&& 0x3FFF) ||| ((coarseY <<< 5) &&& 0x3E0)

def vramGetNametableX (address : Nat) : Nat := (address >>> 10) &&& 0b1

def vramSetNametableX (address nametableX : Nat) : Nat :=
  (address &&& (0x400 ^^^ 0xFFFF) &&& 0x3FFF) ||| (((nametableX &&& 0b1) <<< 10) &&& 0x400)

def vramGetNametableY (address : Nat) : Nat := (address >>> 11) &&& 0b1

def vramSetNametableY (address nametableY : Nat) : Nat :=
  (address &&& (0x800 ^^^ 0xFFFF) &&& 0x3FFF) ||| (((nametableY &&& 0b1) <<< 11) &&& 0x800)

def vramGetFineY (address : Nat) : Nat := (address >>> 12) &&& 0b111

def vramSetFineY (address fineY : Nat) : Nat :=
  (address &&& (0x7000 ^^^ 0xFFFF) &&& 0x3FFF) ||| ((fineY <<< 12) &&& 0x7000)

/-- `Ppu` state (ppu/mod.rs) together with the bus pieces it reaches:
the PPU memory map the bus owns and the bus NMI latch. -/
structure PpuState where
  mirroring : Mirroring
  controller : Nat
  mask : Nat
  status : Nat
  oamaddress : Nat
  oamdata : Nat
  vram : Nat
  vramTemp : Nat
  dataReg : Nat
  addressLatch : Bool
  fineX : Nat
  cycles : Nat
  scanline : Int
  internalBuf : Option Nat
  screenState : ScreenState
  screenBuffer : ScreenBuffer
  internalOam : Nat → Nat
  memoryMap : PpuMemoryMap
  nmiLatch : Bool

/-- `impl Memory for Ppu`, `read`: forwards to the bus's PPU memory map. -/
def ppuRead (s : PpuState) (address : Nat) : Option Nat :=
  ppuMapRead s.memoryMap address

/-- `impl Memory for Ppu`, `write`: forwards to the bus's PPU memory map. -/
def ppuWrite (s : PpuState) (address data : Nat) : Option PpuState := do
  let m ← ppuMapWrite s.memoryMap address data
  pure { s with memoryMap := m }

/-- `Ppu::increment_scroll_x` (ppu/mod.rs). -/
def incrementScrollX (s : PpuState) : PpuState :=
  let showBackground := getFlag s.mask showBackgroundFlag
  let showSprites := getFlag s.mask showSpritesFlag
  if showBackground || showSprites then
    let coarseX := vramGetCoarseX s.vram
    if coarseX = 31 then
      let nametableX := vramGetNametableX s.vram
      { s with vram := vramSetNametableX (vramSetCoarseX s.vram 0) (nametableX ^^^ 0xFFFF) }
    else
      { s with vram := vramSetCoarseX s.vram (coarseX + 1) }
  else s

/-- `Ppu::increment_scroll_y` (ppu/mod.rs). -/
def incrementScrollY (s : PpuState) : PpuState :=
  let fineY := vramGetFineY s.vram
  let showBackground := getFlag s.mask showBackgroundFlag
  let showSprites := getFlag s.mask showSpritesFlag
  if showBackground || showSprites then
    if fineY < 7 then
      { s with vram := vramSetFineY s.vram (fineY + 1) }
    else
      let s := { s with vram := vramSetFineY s.vram 0 }
      let coarseY := vramGetCoarseY s.vram
      if coarseY = 29 then
        let nametableY := vramGetNametableY s.vram
        { s with vram := vramSetNametableY (vramSetCoarseY s.vram 0) (nametableY ^^^ 0xFFFF) }
      else if coarseY = 31 then
        { s with vram := vramSetCoarseY s.vram 0 }
      else
        { s with vram := vramSetCoarseY s.vram (coarseY + 1) }
  else s

/-- `Ppu::transfer_address_x` (ppu/mod.rs). -/
def transferAddressX (s : PpuState) : PpuState :=
  let showBackground := getFlag s.mask showBackgroundFlag
  let showSprites := getFlag s.mask showSpritesFlag
  if showBackground || showSprites then
    let v := vramSetNametableX s.vram (vramGetNametableX s.vramTemp)
    { s with vram := vramSetCoarseX v (vramGetCoarseX s.vramTemp) }
  else s

/-- `Ppu::transfer_address_y` (ppu/mod.rs). -/
def transferAddressY (s : PpuState) : PpuState :=
  let showBackground := getFlag s.mask showBackgroundFlag
  let showSprites := getFlag s.mask showSpritesFlag
  if showBackground || showSprites then
    let v := vramSetFineY s.vram (vramGetFineY s.vramTemp)
    let v := vramSetNametableY v (vramGetNametableY s.vramTemp)
    { s with vram := vramSetCoarseY v (vramGetCoarseY s.vramTemp) }
  else s

/-- `Ppu::read_tile_id` (ppu/mod.rs). -/
def readTileId (s : PpuState) : Option PpuState := do
  let tileId ← ppuRead s (0x2000 ||| (s.vram &&& 0x0FFF))
  pure { s with screenState := { s.screenState with bgNextTileId := tileId } }

/-- `Ppu::read_attribute` (ppu/mod.rs). -/
def readAttribute (s : PpuState) : Option PpuState := do
  let attr ← ppuRead s (0x23C0 |||
    (vramGetNametableY s.vram <<< 11) |||
    (vramGetNametableX s.vram <<< 10) |||
    ((vramGetCoarseY s.vram >>> 2) <<< 3) |||
    (vramGetCoarseX s.vram >>> 2))
  let attr := if vramGetCoarseY s.vram &&& 0b10 ≠ 0 then attr >>> 4 else attr
  let attr := if vramGetCoarseX s.vram &&& 0b10 ≠ 0 then attr >>> 2 else attr
  pure { s with screenState := { s.screenState with bgNextTileAttribute := attr &&& 0b11 } }

/-- `Ppu::read_tile_lsb` (ppu/mod.rs). -/
def readTileLsb (s : PpuState) : Option PpuState := do
  let bgPatternTable : Nat :=
    if getFlag s.controller backgroundPatternTableFlag then 1 else 0
  let tileLsb ← ppuRead s ((bgPatternTable <<< 12) +
    (s.screenState.bgNextTileId <<< 4) + vramGetFineY s.vram)
  pure { s with screenState := { s.screenState with bgNextTileLsb := tileLsb } }

/-- `Ppu::read_tile_msb` (ppu/mod.rs). -/
def readTileMsb (s : PpuState) : Option PpuState := do
  let bgPatternTable : Nat :=
    if getFlag s.controller backgroundPatternTableFlag then 1 else 0
  let tileMsb ← ppuRead s ((bgPatternTable <<< 12) +
    (s.screenState.bgNextTileId <<< 4) + vramGetFineY s.vram + 8)
  pure { s with screenState := { s.screenState with bgNextTileMsb := tileMsb } }

/-- `Ppu::load_background_shift` (ppu/mod.rs). -/
def loadBackgroundShift (s : PpuState) : PpuState :=
  let st := s.screenState
  { s with screenState := { st with
      bgShiftPatternLo := (st.bgShiftPatternLo &&& 0xFF00) ||| st.bgNextTileLsb,
      bgShiftPatternHi := (st.bgShiftPatternHi &&& 0xFF00) ||| st.bgNextTileMsb,
      bgShiftAttributeLo := (st.bgShiftAttributeLo &&& 0xFF00) |||
        (if st.bgNextTileAttribute &&& 0b01 ≠ 0 then 0xFF else 0x00),
      bgShiftAttributeHi := (st.bgShiftAttributeHi &&& 0xFF00) |||
        (if st.bgNextTileAttribute &&& 0b10 ≠ 0 then 0xFF else 0x00) } }

/-- One iteration of the sprite-countdown loop in `Ppu::update_shift`. -/
def updateShiftSpriteStep (s : PpuState) (index : Nat) : PpuState :=
  if s.internalOam (index * 4 + 3) > 0 then
    { s with internalOam := fun i =>
        if i = index * 4 + 3 then s.internalOam i - 1 else s.internalOam i }
  else
    { s with screenState := { s.screenState with
        spriteShiftPatternLo := fun i =>
          if i = index then (s.screenState.spriteShiftPatternLo i <<< 1) &&& 0xFF
          else s.screenState.spriteShiftPatternLo i,
        spriteShiftPatternHi := fun i =>
          if i = index then (s.screenState.spriteShiftPatternHi i <<< 1) &&& 0xFF
          else s.screenState.spriteShiftPatternHi i } }

/-- `Ppu::update_shift` (ppu/mod.rs): shift the four 16-bit background
registers when background rendering is on; when sprite rendering is on and
the dot is in `1..258`, walk the selected sprites, counting down each
sprite's X byte and shifting its pattern bytes once X has reached zero. -/
def updateShift (s : PpuState) : PpuState :=
  let showBackground := getFlag s.mask showBackgroundFlag
  let showSprites := getFlag s.mask showSpritesFlag
  let s :=
    if showBackground then
      { s with screenState := { s.screenState with
          bgShiftPatternLo := (s.screenState.bgShiftPatternLo <<< 1) &&& 0xFFFF,
          bgShiftPatternHi := (s.screenState.bgShiftPatternHi <<< 1) &&& 0xFFFF,
          bgShiftAttributeLo := (s.screenState.bgShiftAttributeLo <<< 1) &&& 0xFFFF,
          bgShiftAttributeHi := (s.screenState.bgShiftAttributeHi <<< 1) &&& 0xFFFF } }
    else s
  if showSprites ∧ 1 ≤ s.cycles ∧ s.cycles < 258 then
    (List.range (min s.screenState.spriteCount 8)).foldl updateShiftSpriteStep s
  else s

/-- `Ppu::fetch_data` (ppu/mod.rs). -/
def fetchData (s : PpuState) : Option PpuState :=
  let visibleScanline := -1 ≤ s.scanline ∧ s.scanline < 240
  if ((2 ≤ s.cycles ∧ s.cycles ≤ 257) ∨ (321 ≤ s.cycles ∧ s.cycles ≤ 337)) ∧
      visibleScanline then
    let s := updateShift s
    match (s.cycles - 1) % 8 with
    | 0 => readTileId (loadBackgroundShift s)
    | 2 => readAttribute s
    | 4 => readTileLsb s
    | 6 => readTileMsb s
    | 7 => some (incrementScrollX s)
    | _ => some s
  else some s

/-- `Ppu::skip_odd_frame` (ppu/mod.rs). -/
def skipOddFrame (s : PpuState) : PpuState :=
  if s.scanline = 0 ∧ s.cycles = 0 then { s with cycles := 1 } else s

/-- `Ppu::reset_vblank` (ppu/mod.rs). -/
def resetVblank (s : PpuState) : PpuState :=
  if s.scanline = -1 ∧ s.cycles = 1 then
    let st := setFlag s.status vblankFlag false
    let st := setFlag st spriteZeroHitFlag false
    let st := setFlag st spriteOverflowFlag false
    { s with status := st,
             screenState := { s.screenState with
               spriteShiftPatternLo := fun _ => 0,
               spriteShiftPatternHi := fun _ => 0 } }
  else s

/-- `Ppu::update_vblank` (ppu/mod.rs): at scanline 241 dot 1 set the VBlank
status bit and, only when the controller NMI-enable bit is set, raise the
bus NMI latch (`Bus::set_interrupt(Some(()))`). -/
def updateVblank (s : PpuState) : PpuState :=
  if s.scanline = 241 ∧ s.cycles = 1 then
    if getFlag s.controller generateVBlankNMIFlag then
      { s with status := setFlag s.status vblankFlag true, nmiLatch := true }
    else
      { s with status := setFlag s.status vblankFlag true }
  else s

/-- One iteration of the OAM walk in `Ppu::tick`'s dot-257 sprite
evaluation: `sprite` is the `index`-th 4-byte chunk of primary OAM. -/
def spriteEvaluationStep (s : PpuState) (index : Nat) : PpuState :=
  let spriteCount := s.screenState.spriteCount
  if spriteCount < 9 then
    let diff : Int := s.scanline - (s.memoryMap.oam (index * 4) : Int)
    if 0 ≤ diff ∧ diff < 8 ∧ spriteCount < 8 then
      let s :=
        if index = 0 then
          { s with screenState := { s.screenState with spriteZeroOccured := true } }
        else s
      let internalIndex := spriteCount * 4
      let s := { s with internalOam := fun i =>
          if internalIndex ≤ i ∧ i < internalIndex + 4 then
            s.memoryMap.oam (index * 4 + (i - internalIndex))
          else s.internalOam i }
      { s with screenState := { s.screenState with spriteCount := spriteCount + 1 } }
    else s
  else s

/-- The dot-257 sprite evaluation block of `Ppu::tick` (ppu/mod.rs), run
when `scanline >= 0`: clear secondary OAM and the sprite bookkeeping, walk
the 64 primary-OAM entries, then set the sprite-overflow status flag from
`sprite_count > 8`. -/
def spriteEvaluation (s : PpuState) : PpuState :=
  let s := { s with
    internalOam := fun _ => 0xFF,
    screenState := { s.screenState with
      spriteCount := 0,
      spriteZeroOccured := false,
      spriteShiftPatternLo := fun _ => 0,
      spriteShiftPatternHi := fun _ => 0 } }
  let s := (List.range 64).foldl spriteEvaluationStep s
  let st := setFlag s.status spriteOverflowFlag (decide (s.screenState.spriteCount > 8))
  { s with status := st }

/-- The bit-reversal closure `flip_byte` in `Ppu::tick`. -/
def flipByte (b : Nat) : Nat :=
  let b := ((b &&& 0xF0) >>> 4) ||| ((b &&& 0x0F) <<< 4)
  let b := ((b &&& 0xCC) >>> 2) ||| ((b &&& 0x33) <<< 2)
  ((b &&& 0xAA) >>> 1) ||| ((b &&& 0x55) <<< 1)

/-- One iteration of the dot-340 sprite pattern fetch in `Ppu::tick`;
`(scanline - Y)` is an `isize` cast to `u16` (two's-complement truncation)
and `7 - diff` wraps in `u16`. -/
def spriteFetchStep (s : PpuState) (index : Nat) : Option PpuState := do
  let spritePatternTable : Nat :=
    if getFlag s.controller spritesPatternTableFlag then 1 else 0
  let spriteY := s.internalOam (index * 4)
  let tileId := s.internalOam (index * 4 + 1)
  let attributes := s.internalOam (index * 4 + 2)
  let diff : Nat := usizeOfInt (s.scanline - (spriteY : Int)) % 65536
  let patternAddressLo :=
    if attributes &&& 0x80 ≠ 0x80 then
      (spritePatternTable <<< 12) ||| (tileId <<< 4) ||| diff
    else
      (spritePatternTable <<< 12) ||| (tileId <<< 4) ||| ((65536 + 7 - diff) % 65536)
  let patternAddressHi := (patternAddressLo + 8) % 65536
  let bitsLo ← ppuRead s patternAddressLo
  let bitsHi ← ppuRead s patternAddressHi
  let flip := attributes &&& 0x40 == 0x40
  let bitsLo := if flip then flipByte bitsLo else bitsLo
  let bitsHi := if flip then flipByte bitsHi else bitsHi
  pure { s with screenState := { s.screenState with
    spriteShiftPatternLo := fun i =>
      if i = index then bitsLo else s.screenState.spriteShiftPatternLo i,
    spriteShiftPatternHi := fun i =>
      if i = index then bitsHi else s.screenState.spriteShiftPatternHi i } }

/-- The dot-340 sprite pattern fetch loop of `Ppu::tick` (ppu/mod.rs). -/
def spriteFetch (s : PpuState) : Option PpuState :=
  (List.range (min s.screenState.spriteCount 8)).foldlM spriteFetchStep s

/-- The background-pixel selection of `Ppu::tick` (ppu/mod.rs): both values
are zero unless background rendering is enabled. -/
def backgroundPixel (s : PpuState) : Nat × Nat :=
  if getFlag s.mask showBackgroundFlag then
    let bitMux := 0x8000 >>> s.fineX
    let p0 := (decide (s.screenState.bgShiftPatternLo &&& bitMux > 0)).toNat
    let p1 := (decide (s.screenState.bgShiftPatternHi &&& bitMux > 0)).toNat
    let b0 := (decide (s.screenState.bgShiftAttributeLo &&& bitMux > 0)).toNat
    let b1 := (decide (s.screenState.bgShiftAttributeHi &&& bitMux > 0)).toNat
    ((p1 <<< 1) ||| p0, (b1 <<< 1) ||| b0)
  else (0, 0)

/-- Accumulator of the foreground sprite walk in `Ppu::tick`: the mutable
locals `fg_pixel`, `fg_palette`, `fg_priority`, the pending value for
`sprite_zero_rendering`, and whether the loop has hit its `break`. -/
structure ForegroundPixel where
  fgPixel : Nat
  fgPalette : Nat
  fgPriority : Bool
  spriteZeroRendering : Bool
  broken : Bool

/-- One iteration of the foreground sprite walk in `Ppu::tick`. -/
def spriteForegroundStep (s : PpuState) (acc : ForegroundPixel) (index : Nat) :
    ForegroundPixel :=
  if acc.broken then acc
  else if s.internalOam (index * 4 + 3) = 0 then
    let patternLo := s.screenState.spriteShiftPatternLo index
    let patternHi := s.screenState.spriteShiftPatternHi index
    let fgPixelLo := (decide (patternLo &&& 0x80 > 0)).toNat
    let fgPixelHi := (decide (patternHi &&& 0x80 > 0)).toNat
    let fgPixel := (fgPixelHi <<< 1) ||| fgPixelLo
    let fgPalette := (s.internalOam (index * 4 + 2) &&& 0x03) + 0x04
    let fgPriority := s.internalOam (index * 4 + 2) &&& 0x20 == 0
    if fgPixel ≠ 0 then
      { fgPixel := fgPixel, fgPalette := fgPalette, fgPriority := fgPriority,
        spriteZeroRendering := index == 0, broken := true }
    else
      { fgPixel := fgPixel, fgPalette := fgPalette, fgPriority := fgPriority,
        spriteZeroRendering := acc.spriteZeroRendering, broken := false }
  else acc

/-- The foreground sprite walk of `Ppu::tick` (ppu/mod.rs): walk the
selected sprites in order; the first whose X countdown has reached zero
and whose pixel is non-zero wins and stops the walk. -/
def spriteForeground (s : PpuState) : ForegroundPixel :=
  (List.range (min s.screenState.spriteCount 8)).foldl (spriteForegroundStep s)
    { fgPixel := 0, fgPalette := 0, fgPriority := false,
      spriteZeroRendering := false, broken := false }

/-- The `scanline >= -1 && scanline < 240` block of `Ppu::tick`
(ppu/mod.rs): odd-frame skip, VBlank reset, background fetching, and the
dot-keyed match (scroll increments, address transfers, sprite evaluation
at 257, tile reads at 338/340 with the sprite pattern fetch at 340). -/
def ppuTickInner (s : PpuState) : Option PpuState := do
  let s := skipOddFrame s
  let s := resetVblank s
  let s ← fetchData s
  if s.cycles = 256 then
    pure (incrementScrollY s)
  else if s.cycles = 257 then
    let s := loadBackgroundShift s
    let s := transferAddressX s
    if 0 ≤ s.scanline then pure (spriteEvaluation s) else pure s
  else if 280 ≤ s.cycles ∧ s.cycles ≤ 304 ∧ s.scanline = -1 then
    pure (transferAddressY s)
  else if s.cycles = 338 ∨ s.cycles = 340 then
    let s ← readTileId s
    if s.cycles = 340 ∧ 0 ≤ s.scanline then spriteFetch s else pure s
  else
    pure s

/-- The `screen_state.sprite_zero_rendering` update at the start of the
foreground walk in `Ppu::tick`: when sprite rendering is on, the walk's
outcome is stored in the screen state; otherwise the stale value stays. -/
def applySpriteZeroRendering (s : PpuState) : PpuState :=
  if getFlag s.mask showSpritesFlag then
    { s with screenState := { s.screenState with
        spriteZeroRendering := (spriteForeground s).spriteZeroRendering } }
  else s

/-- The sprite-zero-hit update inside the both-opaque arm of `Ppu::tick`'s
pixel match: requires `sprite_zero_occured && sprite_zero_rendering`, both
rendering enables, and the dot window (shifted right by 8 when either
leftmost-8-pixel disable is active). -/
def compositeSpriteZeroHit (s : PpuState) : PpuState :=
  if (s.screenState.spriteZeroOccured && s.screenState.spriteZeroRendering) &&
      getFlag s.mask showBackgroundFlag && getFlag s.mask showSpritesFlag then
    if !(getFlag s.mask showBackgroundLeftmostFlag ||
        getFlag s.mask showSpritesLeftmostFlag) then
      if 9 ≤ s.cycles ∧ s.cycles < 258 then
        { s with status := setFlag s.status spriteZeroHitFlag true }
      else s
    else if 1 ≤ s.cycles ∧ s.cycles < 258 then
      { s with status := setFlag s.status spriteZeroHitFlag true }
    else s
  else s

/-- The `match (bg_pixel, fg_pixel)` of `Ppu::tick` (ppu/mod.rs): pick the
output pixel and palette per the priority table, with the sprite-zero-hit
update in the both-opaque case; the final arm is the source's unreachable
`panic!("Invalid pixel data!")`. -/
def compositeChoose (s : PpuState) (bgPixel bgPalette fgPixel fgPalette : Nat)
    (fgPriority : Bool) : Option ((Nat × Nat) × PpuState) :=
  if bgPixel = 0 ∧ fgPixel = 0 then
    some ((0, 0), s)
  else if bgPixel = 0 ∧ 1 ≤ fgPixel ∧ fgPixel ≤ 3 then
    some ((fgPixel, fgPalette), s)
  else if 1 ≤ bgPixel ∧ bgPixel ≤ 3 ∧ fgPixel = 0 then
    some ((bgPixel, bgPalette), s)
  else if 1 ≤ bgPixel ∧ bgPixel ≤ 3 ∧ 1 ≤ fgPixel ∧ fgPixel ≤ 3 then
    some ((if fgPriority then (fgPixel, fgPalette) else (bgPixel, bgPalette)),
      compositeSpriteZeroHit s)
  else none

/-- The pixel-selection part of `Ppu::tick` (ppu/mod.rs): the background
pixel/palette (zero unless background rendering is on), the foreground
pixel/palette/priority from the sprite walk (zero/false unless sprite
rendering is on, in which case `sprite_zero_rendering` is also updated),
then the priority table. -/
def compositePixel (s : PpuState) : Option ((Nat × Nat) × PpuState) :=
  compositeChoose (applySpriteZeroRendering s)
    (backgroundPixel s).1 (backgroundPixel s).2
    (if getFlag s.mask showSpritesFlag then (spriteForeground s).fgPixel else 0)
    (if getFlag s.mask showSpritesFlag then (spriteForeground s).fgPalette else 0)
    (if getFlag s.mask showSpritesFlag then (spriteForeground s).fgPriority else false)

/-- The end-of-scanline bookkeeping of `Ppu::tick`: at dot 341 reset the
dot counter and advance the scanline, wrapping 261 to the pre-render
line -1. -/
def renderAdvance (s : PpuState) : Option PpuState :=
  if 341 ≤ s.cycles then
    pure (if 261 ≤ s.scanline + 1 then
      { s with cycles := 0, scanline := -1 }
    else
      { s with cycles := 0, scanline := s.scanline + 1 })
  else
    pure s

/-- The framebuffer tail of `Ppu::tick` (ppu/mod.rs): read the palette
byte for the chosen pixel (u8 arithmetic on `(palette << 2) + pixel`),
write it to the framebuffer at `(cycles - 1, scanline as usize)`, and
advance the dot/scanline counters. -/
def renderWriteBack (s : PpuState) (pixel palette : Nat) : Option PpuState := do
  let pixelColor ← ppuRead s (0x3F00 + ((((palette <<< 2) &&& 0xFF) + pixel) % 256))
  renderAdvance { s with screenBuffer :=
    s.screenBuffer.setPixel (s.cycles - 1) (usizeOfInt s.scanline) pixelColor }

/-- The pixel-compositing and framebuffer tail of `Ppu::tick`. -/
def ppuTickRender (s : PpuState) : Option PpuState := do
  let pps ← compositePixel s
  renderWriteBack pps.2 pps.1.1 pps.1.2

/-- `Ppu::tick` (ppu/mod.rs): advance the dot counter, run the visible /
pre-render work, update VBlank, then composite and write the pixel. -/
def ppuTick (amount : Nat) (s : PpuState) : Option PpuState := do
  let s2 ← if -1 ≤ s.scanline ∧ s.scanline < 240 then
      ppuTickInner { s with cycles := (s.cycles + amount) % usizeSize }
    else
      pure { s with cycles := (s.cycles + amount) % usizeSize }
  ppuTickRender (updateVblank s2)

/-- `Ppu::mirror_address` (ppu/mod.rs): the nametable index is
`(address - 0x2000) / 0x400` in `u16` arithmetic; horizontal mirroring
folds indices 1 and 3 down by `0x400`, vertical folds 2 and 3 down by
`0x800`, and four-screen is an unimplemented `todo!`. -/
def mirrorAddress (mirroring : Mirroring) (address : Nat) : Option Nat :=
  let nametableIndex := ((address + 0x10000 - 0x2000) % 0x10000) / 0x400
  match mirroring with
  | .Horizontal =>
      if nametableIndex = 1 ∨ nametableIndex = 3 then
        some ((address + 0x10000 - 0x400) % 0x10000)
      else some address
  | .Vertical =>
      if nametableIndex = 2 ∨ nametableIndex = 3 then
        some ((address + 0x10000 - 0x800) % 0x10000)
      else some address
  | .FourScreen => none

/-- `Ppu::write_data` (ppu/mod.rs): mirror nametable addresses, write
through the PPU memory map, latch the data register, and advance `v` by 1
or 32 according to PPUCTRL bit 2 (then mask to 14 bits as `set` does). -/
def writeData (s : PpuState) (data : Nat) : Option PpuState := do
  let addressIncrement := getFlag s.controller addressIncrementFlag
  let address := s.vram
  let writeAddress ←
    if 0x2000 ≤ address ∧ address ≤ 0x2FFF then mirrorAddress s.mirroring address
    else if 0x3000 ≤ address ∧ address ≤ 0x3EFF then
      mirrorAddress s.mirroring (address - 0x1000)
    else pure address
  let s ← ppuWrite s writeAddress data
  let s := { s with dataReg := data }
  let v := vramSet ((address + (if addressIncrement then 32 else 1)) % 65536)
  pure { s with vram := v }

/-- `Ppu::read_data` (ppu/mod.rs): buffered PPUDATA read — below `$3F00`
the previously buffered byte is returned and the buffer refilled from the
(mirrored) current address; palette addresses read through directly.  `v`
is advanced before the read resolves. -/
def readData (s : PpuState) : Option (Nat × PpuState) := do
  let internalBuf := s.internalBuf.getD 0
  let addressIncrement := getFlag s.controller addressIncrementFlag
  let address := s.vram
  let readAddress ←
    if 0x2000 ≤ address ∧ address ≤ 0x2FFF then mirrorAddress s.mirroring address
    else if 0x3000 ≤ address ∧ address ≤ 0x3EFF then
      mirrorAddress s.mirroring (address - 0x1000)
    else pure address
  let v := vramSet ((address + (if addressIncrement then 32 else 1)) % 65536)
  let s := { s with vram := v }
  if address ≤ 0x3EFF then
    let v ← ppuRead s readAddress
    pure (internalBuf, { s with internalBuf := some v })
  else
    let v ← ppuRead s readAddress
    pure (v, s)

/-- Modelled from the spec: `Ppu::has_interrupt` calls `Bus::get_interrupt`,
which is absent from the bus in src/ (the bus there only has the consuming
`poll_interrupt`); the spec's bus contract provides `peek_nmi()`, which
"reads without consuming", so the call is a non-consuming view of the NMI
latch. -/
def hasInterrupt (s : PpuState) : Bool := s.nmiLatch

/-- `Clock` (clock.rs): the cycle counter plus the PPU it advances. -/
structure ClockState where
  ppu : PpuState
  cycles : Nat

/-- The `for _ in 0..(amount * 3)` loop of `Clock::tick`: repeated
`Ppu::tick(1)`. -/
def ppuTickTimes : Nat → PpuState → Option PpuState
  | 0, s => some s
  | n + 1, s => do ppuTickTimes n (← ppuTick 1 s)

/-- `Clock::tick` (clock.rs): add the amount to the cycle counter, sample
`Ppu::has_interrupt`, advance the PPU by `3 * amount` dots, sample again,
and invoke the render callback (the returned Bool) exactly when the NMI
latch went from unset to set during this call. -/
def clockTick (amount : Nat) (c : ClockState) : Option (ClockState × Bool) := do
  let ppu ← ppuTickTimes (amount * 3) c.ppu
  pure ({ ppu := ppu, cycles := (c.cycles + amount) % usizeSize },
    !hasInterrupt c.ppu && hasInterrupt ppu)

/-! ## Concrete machine states used in the claim evaluations -/

/-- Power-on CPU machine state (cpu.rs `Cpu::new` register values) over
zeroed RAM and an empty cartridge window. -/
def cpuBase : CpuState :=
  { registerA := 0, registerX := 0, registerY := 0, status := 0x24,
    stackPointer := 0xFD, programCounter := 0x8000,
    internalRam := fun _ => 0, mapperPrg := fun _ => 0,
    nmiLatch := false, cycles := 7 }

/-- State for the NMI claim: the bus NMI latch is set, PC points at a NOP
(opcode `0xEA`) in RAM, the status byte is clear. -/
def cpuStateC1 : CpuState := { cpuBase with
  programCounter := 0x0100, status := 0,
  internalRam := fun a => if a = 0x100 then 0xEA else 0,
  nmiLatch := true, cycles := 0 }

/-- State for the RAM-mirroring counterexample: RAM byte 0 holds 1, every
other RAM byte holds 0. -/
def cpuStateC5 : CpuState :=
  { cpuBase with internalRam := fun a => if a = 0 then 1 else 0 }

/-- State for the indirect-JMP scenario: `JMP ($02FF)` operand bytes at
`$0600`, with `$02FF = 0x34`, `$0200 = 0x56`, `$0300 = 0x78`. -/
def cpuStateC6 : CpuState := { cpuBase with
  programCounter := 0x0600,
  internalRam := fun a =>
    if a = 0x600 then 0xFF else if a = 0x601 then 0x02
    else if a = 0x2FF then 0x34 else if a = 0x200 then 0x56
    else if a = 0x300 then 0x78 else 0 }

/-- State for the ADC overflow scenario: `A = 0x50`, operand byte `0x50`
at PC, carry clear (status `0x24`). -/
def cpuStateC7 : CpuState := { cpuBase with
  registerA := 0x50, programCounter := 0x0010,
  internalRam := fun a => if a = 0x10 then 0x50 else 0 }

/-- `Ppu::new` over a fresh bus: zeroed registers, dot 0 of scanline 0,
secondary OAM filled with `0xFF`, a 256 x 240 framebuffer, zeroed
nametables/palette/OAM/CHR. -/
def ppuBase : PpuState :=
  { mirroring := .Horizontal, controller := 0, mask := 0, status := 0,
    oamaddress := 0, oamdata := 0, vram := 0, vramTemp := 0, dataReg := 0,
    addressLatch := false, fineX := 0, cycles := 0, scanline := 0,
    internalBuf := none, screenState := ScreenState.new,
    screenBuffer := { width := 256, size := 61440, pixels := fun _ => 0 },
    internalOam := fun _ => 0xFF,
    memoryMap := { nametable := fun _ => 0, palette := fun _ => 0,
                   oam := fun _ => 0, chr := fun _ => 0 },
    nmiLatch := false }

/-- State for the sprite-overflow claim: about to tick into dot 257 of
scanline 10; primary OAM holds nine sprites (entries 0..8) with `Y = 10`
and 55 sprites with `Y = 0xF0`. -/
def ppuStateC4 : PpuState := { ppuBase with
  scanline := 10, cycles := 256,
  memoryMap := { ppuBase.memoryMap with
    oam := fun i => if i % 4 = 0 then (if i < 36 then 10 else 0xF0) else 0 } }

/-- State for the framebuffer claim: about to tick into dot 257 of visible
scanline 0; no sprite has `Y` near the scanline; palette entry 0 is 9 so
the composited pixel color is visible against the zeroed framebuffer. -/
def ppuStateC10 : PpuState := { ppuBase with
  cycles := 256, scanline := 0,
  memoryMap := { ppuBase.memoryMap with
    oam := fun _ => 0xF0, palette := fun i => if i = 0 then 9 else 0 } }

/-- Pre-render variant of the framebuffer-claim state: about to tick into
dot 257 of scanline -1. -/
def ppuStateC10pre : PpuState := { ppuStateC10 with scanline := -1 }

/-- A state squarely inside VBlank (scanline 250) for the framebuffer
witness. -/
def ppuStateC10w : PpuState := { ppuBase with scanline := 250, cycles := 100 }

/-- State for the frame-callback claim: about to tick into dot 1 of
scanline 241 with the PPUCTRL NMI-enable bit clear and the latch unset. -/
def ppuStateC3 : PpuState := { ppuBase with scanline := 241, cycles := 0 }

/-- Clock owning `ppuStateC3`. -/
def clockStateC3 : ClockState := { ppu := ppuStateC3, cycles := 7 }

/-- The same crossing state with NMI-enable set, for the amended claim's
witness. -/
def ppuStateC3en : PpuState := { ppuStateC3 with controller := 0x80 }

/-- Clock owning `ppuStateC3en`. -/
def clockStateC3en : ClockState := { ppu := ppuStateC3en, cycles := 7 }

/-- PPU state for the nametable-mirroring scenario, horizontal case:
`v = $2400`. -/
def ppuStateC9h : PpuState := { ppuBase with mirroring := .Horizontal, vram := 0x2400 }

/-- PPU state for the nametable-mirroring scenario, vertical case:
`v = $2800`. -/
def ppuStateC9v : PpuState := { ppuBase with mirroring := .Vertical, vram := 0x2800 }

/-! ## Bit-level helper lemmas -/

theorem and2047_eq_mod (a : Nat) : a &&& 0x7FF = a % 0x800 := by
  have h := Nat.and_pow_two_sub_one_eq_mod a 11
  norm_num at h
  exact h

theorem getFlag_two_pow (x i : Nat) : getFlag x (2 ^ i) = x.testBit i := by
  unfold getFlag
  rw [Nat.and_two_pow]
  cases h : x.testBit i
  · simp
  · simp [Nat.pow_eq_zero]

theorem testBit_setFlag (x f : Nat) (b : Bool) (i : Nat) :
    (setFlag x f b).testBit i =
      (if b then x.testBit i || f.testBit i
       else x.testBit i && (f ^^^ 0xFF).testBit i) := by
  cases b <;> simp [setFlag, Nat.testBit_or, Nat.testBit_and, Nat.testBit_xor]

theorem testBit_setFlag_other (x f : Nat) (b : Bool) (i : Nat)
    (h1 : f.testBit i = false) (h2 : (f ^^^ 0xFF).testBit i = true) :
    (setFlag x f b).testBit i = x.testBit i := by
  cases b <;> simp [testBit_setFlag, h1, h2]

theorem testBit_setFlag_self (x f : Nat) (b : Bool) (i : Nat)
    (h1 : f.testBit i = true) (h2 : (f ^^^ 0xFF).testBit i = false) :
    (setFlag x f b).testBit i = b := by
  cases b <;> simp [testBit_setFlag, h1, h2]

theorem and128_beq_eq_testBit (x : Nat) : ((x &&& 0x80) == 0x80) = x.testBit 7 := by
  rw [show (0x80 : Nat) = 2 ^ 7 from rfl, Nat.and_two_pow]
  cases h : x.testBit 7 <;> simp

theorem and128_ne_eq_testBit (x : Nat) :
    (decide (x &&& 0x80 ≠ 0)) = x.testBit 7 := by
  rw [show (0x80 : Nat) = 2 ^ 7 from rfl, Nat.and_two_pow]
  cases h : x.testBit 7 <;> simp

theorem nat_beq_eq_decide (x y : Nat) : (x == y) = decide (x = y) := by
  by_cases h : x = y
  · simp [h]
  · simp [h]


theorem adc_overflow_bridge (a m r : Nat) :
    (((a ^^^ r) &&& ((a ^^^ m) ^^^ 0xFFFF) &&& 0x80) == 0x80) =
      decide ((a ^^^ r % 256) &&& (m ^^^ r % 256) &&& 0x80 ≠ 0) := by
  rw [and128_beq_eq_testBit, and128_ne_eq_testBit]
  simp only [show (256 : Nat) = 2 ^ 8 from rfl, Nat.testBit_and, Nat.testBit_xor,
    Nat.testBit_mod_two_pow, show Nat.testBit 0xFFFF 7 = true from by decide,
    show (7 < 8) = True from by simp]
  cases ha : a.testBit 7 <;> cases hm2 : m.testBit 7 <;> cases hr : r.testBit 7 <;>
    simp [ha, hm2, hr]

/-! ## Claim C1 -/

/-- Claim C1: the claim states that a fetch step beginning with the bus NMI
latch set services the NMI (pushes PC high then low, pushes status with
B=0 and U=1, sets Interrupt-Disable, loads PC from `$FFFA`, ticks seven
cycles).  In the source, `Cpu::fetch` consumes the latch through
`Bus::poll_interrupt` but its handler body is an empty TODO block, so
nothing of that happens.  Evaluated at a state with the latch set and a
NOP at PC: PC just advances past the opcode, the stack pointer and stack
page and status are untouched, only the instruction's two cycles are
ticked, and the latch is silently dropped. -/
theorem claim_C1_nmi_never_serviced :
    cpuStateC1.nmiLatch = true ∧
    (fetch cpuStateC1).map (fun t =>
        (t.programCounter, t.stackPointer, t.cycles, t.status)) =
      some (0x0101, 0xFD, 2, 0) ∧
    (fetch cpuStateC1).map (fun t =>
        (t.nmiLatch, t.internalRam 0x1FD, t.internalRam 0x1FC, t.internalRam 0x1FB)) =
      some (false, 0, 0, 0) := by
  refine ⟨rfl, ?_, ?_⟩ <;> set_option maxRecDepth 100000 in decide

/-! ## Claim C2 -/

/-- Claim C2: the claim states that CPU reads and writes in
`$2000..=$3FFF` and at `$4014` route to the PPU register file / OAM-DMA
port and return normally.  In the source both regions are unfinished
`todo!` arms of `impl Memory for Cpu` (`todo!("PPU registers")`,
`todo!("PPU OAM DMA, APU")`), which panic and abort emulation (modelled as
`none`).  Evaluated at representative addresses of both regions. -/
theorem claim_C2_ppu_ports_abort :
    cpuRead cpuBase 0x2000 = none ∧ (cpuWrite cpuBase 0x2000 0xAB).isNone = true ∧
    cpuRead cpuBase 0x2002 = none ∧
    cpuRead cpuBase 0x3FFF = none ∧ (cpuWrite cpuBase 0x3FFF 0xAB).isNone = true ∧
    cpuRead cpuBase 0x4014 = none ∧ (cpuWrite cpuBase 0x4014 0x02).isNone = true := by
  decide

/-! ## Claim C5 -/

/-- Claim C5 counterexample: the claimed identity
`cpu_read(0x07FF + k) == cpu_read(k)` fails already at `k = 0`: reads in
`$0000..=$1FFF` index RAM through `addr & 0x7FF`, so `$07FF` reads RAM
byte `0x7FF` while `$0000` reads RAM byte 0, which differ in
`cpuStateC5`. -/
theorem claim_C5_counterexample :
    (0 : Nat) < 0x1800 ∧ cpuRead cpuStateC5 (0x07FF + 0) ≠ cpuRead cpuStateC5 0 := by
  decide

/-- Claim C5 amended: the internal-RAM mirror period is `0x800`, not
`0x7FF`: for every machine state and every `k < 0x1800`,
`cpu_read(0x0800 + k) == cpu_read(k)`. -/
theorem claim_C5_ram_mirror (s : CpuState) (k : Nat) (hk : k < 0x1800) :
    cpuRead s (0x0800 + k) = cpuRead s k := by
  simp only [cpuRead, cpuMapRead, and2047_eq_mod]
  split_ifs <;> first
    | omega
    | (congr 1; congr 1; omega)

/-- Claim C5 witness: the amended mirroring identity at `k = 0x123` in the
concrete state `cpuStateC5`. -/
theorem claim_C5_witness :
    (0x123 : Nat) < 0x1800 ∧
    cpuRead cpuStateC5 (0x0800 + 0x123) = cpuRead cpuStateC5 0x123 :=
  ⟨by decide, claim_C5_ram_mirror cpuStateC5 0x123 (by decide)⟩
/-! ## Claim C6 -/

/-- Claim C6: the Indirect addressing mode (used only by JMP) has the
page-wrap bug: when the operand pointer's low byte is `$FF`, the effective
address's high byte is fetched from `$xx00` of the same page (address
`256 * h`), not from the following page; JMP then sets
`PC = tl + 256 * th` with `tl` the byte at the pointer and `th` the byte
at `$xx00`. -/
theorem claim_C6_jmp_indirect_page_wrap (s : CpuState) (h tl th : Nat)
    (hlo : cpuRead s s.programCounter = some 0xFF)
    (hhi : cpuRead s ((s.programCounter + 1) % 65536) = some h)
    (htl : cpuRead s (0xFF + 256 * h) = some tl)
    (hth : cpuRead s (256 * h) = some th) :
    executeJmp .Indirect s = some { s with programCounter := tl + 256 * th } := by
  have e1 : (0xFF + 256 * h) % 256 = 0xFF := by omega
  have e2 : (0xFF + 256 * h) / 256 = h := by omega
  have e3 : (0xFF + 256 * h + 1) % 256 = 0 := by omega
  simp [executeJmp, getMemoryData, cpuReadU16, hlo, hhi, e1, e2, e3, htl, hth]


/-- Claim C6 witness: the claim's concrete scenario: with `$02FF = 0x34`,
`$0200 = 0x56`, `$0300 = 0x78`, executing `JMP ($02FF)` sets
`PC = $5634`, not `$7834`. -/
theorem claim_C6_witness :
    executeJmp .Indirect cpuStateC6 =
      some { cpuStateC6 with programCounter := 0x5634 } ∧ (0x5634 : Nat) ≠ 0x7834 := by
  constructor
  · have h := claim_C6_jmp_indirect_page_wrap cpuStateC6 0x02 0x34 0x56
      (by decide) (by decide) (by decide) (by decide)
    norm_num at h
    exact h
  · decide


/-! ## Claim C7 -/

/-- Claim C7: for every machine state with `A, M` bytes (decimal mode
ignored by the code), ADC stores the low 8 bits of the 9-bit sum
`A + M + C` in A, sets C from the 9th bit (`255 < sum`), Z from the 8-bit
result being zero, N from its bit 7, and V equal to the claim's formula
`((A ^ r) & (M ^ r) & 0x80) != 0`. -/
theorem claim_C7_adc_semantics (s : CpuState) (m : Nat)
    (hread : cpuRead s s.programCounter = some m)
    (hA : s.registerA ≤ 255) (hm : m ≤ 255) :
    ∃ s', executeAdc .Immediate s = some s' ∧
      s'.registerA =
        (s.registerA + m + (if getFlag s.status carryFlag then 1 else 0)) % 256 ∧
      getFlag s'.status carryFlag =
        decide (255 < s.registerA + m + (if getFlag s.status carryFlag then 1 else 0)) ∧
      getFlag s'.status zeroFlag =
        decide ((s.registerA + m + (if getFlag s.status carryFlag then 1 else 0)) % 256 = 0) ∧
      getFlag s'.status negativeFlag =
        Nat.testBit ((s.registerA + m + (if getFlag s.status carryFlag then 1 else 0)) % 256) 7 ∧
      getFlag s'.status overflowFlag =
        decide ((s.registerA ^^^
            (s.registerA + m + (if getFlag s.status carryFlag then 1 else 0)) % 256) &&&
          (m ^^^ (s.registerA + m + (if getFlag s.status carryFlag then 1 else 0)) % 256) &&&
          0x80 ≠ 0) := by
  have hres : ((s.registerA + m) % 65536 + (if getFlag s.status carryFlag then 1 else 0)) % 65536
      = s.registerA + m + (if getFlag s.status carryFlag then 1 else 0) := by
    split <;> omega
  simp only [executeAdc, getMemoryData, hread, hres, Option.bind_eq_bind,
    Option.some_bind, Option.pure_def, Bool.false_eq_true, if_false]
  refine ⟨_, rfl, rfl, ?_, ?_, ?_, ?_⟩
  · rw [show carryFlag = 2 ^ 0 from rfl, getFlag_two_pow,
      testBit_setFlag_other _ _ _ _ (by decide) (by decide),
      testBit_setFlag_other _ _ _ _ (by decide) (by decide),
      testBit_setFlag_other _ _ _ _ (by decide) (by decide),
      testBit_setFlag_self _ _ _ _ (by decide) (by decide)]
  · rw [show zeroFlag = 2 ^ 1 from rfl, getFlag_two_pow,
      testBit_setFlag_other _ _ _ _ (by decide) (by decide),
      testBit_setFlag_self _ _ _ _ (by decide) (by decide),
      nat_beq_eq_decide]
  · rw [show negativeFlag = 2 ^ 7 from rfl, getFlag_two_pow,
      testBit_setFlag_other _ _ _ _ (by decide) (by decide),
      testBit_setFlag_other _ _ _ _ (by decide) (by decide),
      testBit_setFlag_self _ _ _ _ (by decide) (by decide),
      and128_beq_eq_testBit]
  · rw [show overflowFlag = 2 ^ 6 from rfl, getFlag_two_pow,
      testBit_setFlag_self _ _ _ _ (by decide) (by decide),
      adc_overflow_bridge]




/-- Claim C7 witness: the claim's instance A=0x50, M=0x50, C=0: result
0xA0 with N=1, V=1, Z=0, C=0, by the ADC theorem at `cpuStateC7`. -/
theorem claim_C7_witness :
    ∃ s', executeAdc .Immediate cpuStateC7 = some s' ∧
      s'.registerA = 0xA0 ∧
      getFlag s'.status negativeFlag = true ∧
      getFlag s'.status overflowFlag = true ∧
      getFlag s'.status zeroFlag = false ∧
      getFlag s'.status carryFlag = false := by
  obtain ⟨s', h1, h2, h3, h4, h5, h6⟩ :=
    claim_C7_adc_semantics cpuStateC7 0x50 (by decide) (by decide) (by decide)
  refine ⟨s', h1, ?_, ?_, ?_, ?_, ?_⟩
  · rw [h2]; decide
  · rw [h5]; decide
  · rw [h6]; decide
  · rw [h4]; decide
  · rw [h3]; decide

/-! ## PPU helper lemmas -/

theorem toNat_shift_or_le (a b : Bool) : (a.toNat <<< 1 ||| b.toNat) ≤ 3 := by
  cases a <;> cases b <;> decide

theorem backgroundPixel_le (s : PpuState) : (backgroundPixel s).1 ≤ 3 := by
  unfold backgroundPixel
  split
  · exact toNat_shift_or_le _ _
  · simp

theorem spriteForegroundStep_le (s : PpuState) (acc : ForegroundPixel) (i : Nat)
    (h : acc.fgPixel ≤ 3) : (spriteForegroundStep s acc i).fgPixel ≤ 3 := by
  unfold spriteForegroundStep
  split
  · exact h
  · split
    · dsimp only
      split
      · exact toNat_shift_or_le _ _
      · exact toNat_shift_or_le _ _
    · exact h

theorem spriteForeground_le (s : PpuState) : (spriteForeground s).fgPixel ≤ 3 := by
  unfold spriteForeground
  generalize List.range (min s.screenState.spriteCount 8) = l
  suffices H : ∀ (l : List Nat) (acc : ForegroundPixel), acc.fgPixel ≤ 3 →
      ((l.foldl (spriteForegroundStep s) acc).fgPixel ≤ 3) from H l _ (by decide)
  intro l
  induction l with
  | nil => intro acc h; exact h
  | cons a t ih => intro acc h; exact ih _ (spriteForegroundStep_le s acc a h)

theorem ppuMapRead_palette_isSome (m : PpuMemoryMap) (v : Nat) (hv : v ≤ 255) :
    ∃ c, ppuMapRead m (0x3F00 + v) = some c := by
  unfold ppuMapRead
  split_ifs <;> first | exact ⟨_, rfl⟩ | omega

theorem compositeSpriteZeroHit_proj (s : PpuState) :
    (compositeSpriteZeroHit s).scanline = s.scanline ∧
    (compositeSpriteZeroHit s).cycles = s.cycles ∧
    (compositeSpriteZeroHit s).controller = s.controller ∧
    (compositeSpriteZeroHit s).nmiLatch = s.nmiLatch ∧
    (compositeSpriteZeroHit s).screenBuffer = s.screenBuffer ∧
    (compositeSpriteZeroHit s).memoryMap = s.memoryMap := by
  unfold compositeSpriteZeroHit
  split_ifs <;> exact ⟨rfl, rfl, rfl, rfl, rfl, rfl⟩

theorem applySpriteZeroRendering_proj (s : PpuState) :
    (applySpriteZeroRendering s).scanline = s.scanline ∧
    (applySpriteZeroRendering s).cycles = s.cycles ∧
    (applySpriteZeroRendering s).controller = s.controller ∧
    (applySpriteZeroRendering s).nmiLatch = s.nmiLatch ∧
    (applySpriteZeroRendering s).screenBuffer = s.screenBuffer ∧
    (applySpriteZeroRendering s).memoryMap = s.memoryMap := by
  unfold applySpriteZeroRendering
  split_ifs <;> exact ⟨rfl, rfl, rfl, rfl, rfl, rfl⟩

theorem compositeChoose_spec (s : PpuState) (bgPixel bgPalette fgPixel fgPalette : Nat)
    (fgPriority : Bool) (hbg : bgPixel ≤ 3) (hfg : fgPixel ≤ 3) :
    ∃ pp s2, compositeChoose s bgPixel bgPalette fgPixel fgPalette fgPriority =
        some (pp, s2) ∧
      s2.scanline = s.scanline ∧ s2.cycles = s.cycles ∧
      s2.controller = s.controller ∧ s2.nmiLatch = s.nmiLatch ∧
      s2.screenBuffer = s.screenBuffer ∧ s2.memoryMap = s.memoryMap := by
  unfold compositeChoose
  split_ifs <;>
    first
      | exact ⟨_, _, rfl, rfl, rfl, rfl, rfl, rfl, rfl⟩
      | exact ⟨_, _, rfl, compositeSpriteZeroHit_proj s⟩
      | omega

theorem compositePixel_spec (s : PpuState) :
    ∃ pp s2, compositePixel s = some (pp, s2) ∧
      s2.scanline = s.scanline ∧ s2.cycles = s.cycles ∧
      s2.controller = s.controller ∧ s2.nmiLatch = s.nmiLatch ∧
      s2.screenBuffer = s.screenBuffer ∧ s2.memoryMap = s.memoryMap := by
  have hfg : (if getFlag s.mask showSpritesFlag then (spriteForeground s).fgPixel
      else 0) ≤ 3 := by
    split
    · exact spriteForeground_le s
    · omega
  obtain ⟨pp, s2, heq, h1, h2, h3, h4, h5, h6⟩ :=
    compositeChoose_spec (applySpriteZeroRendering s)
      (backgroundPixel s).1 (backgroundPixel s).2
      (if getFlag s.mask showSpritesFlag then (spriteForeground s).fgPixel else 0)
      (if getFlag s.mask showSpritesFlag then (spriteForeground s).fgPalette else 0)
      (if getFlag s.mask showSpritesFlag then (spriteForeground s).fgPriority else false)
      (backgroundPixel_le s) hfg
  obtain ⟨a1, a2, a3, a4, a5, a6⟩ := applySpriteZeroRendering_proj s
  exact ⟨pp, s2, heq, h1.trans a1, h2.trans a2, h3.trans a3, h4.trans a4,
    h5.trans a5, h6.trans a6⟩

theorem renderWriteBack_spec (s : PpuState) (pixel palette : Nat)
    (hc : s.cycles ≤ 340) :
    ∃ color s', renderWriteBack s pixel palette = some s' ∧
      s'.scanline = s.scanline ∧ s'.cycles = s.cycles ∧
      s'.controller = s.controller ∧ s'.nmiLatch = s.nmiLatch ∧
      s'.screenBuffer =
        s.screenBuffer.setPixel (s.cycles - 1) (usizeOfInt s.scanline) color := by
  obtain ⟨c, hcr⟩ := ppuMapRead_palette_isSome s.memoryMap
    ((((palette <<< 2) &&& 0xFF) + pixel) % 256) (by omega)
  unfold renderWriteBack ppuRead renderAdvance
  rw [hcr]
  simp only [Option.bind_eq_bind, Option.some_bind]
  split_ifs with h h2 <;>
    first
      | (exfalso; omega)
      | exact ⟨c, _, rfl, rfl, rfl, rfl, rfl, rfl⟩

theorem ppuTickRender_spec (s : PpuState) (hc : s.cycles ≤ 340) :
    ∃ color s', ppuTickRender s = some s' ∧
      s'.scanline = s.scanline ∧
      s'.cycles = s.cycles ∧
      s'.controller = s.controller ∧
      s'.nmiLatch = s.nmiLatch ∧
      s'.screenBuffer =
        s.screenBuffer.setPixel (s.cycles - 1) (usizeOfInt s.scanline) color := by
  obtain ⟨pp, s2, hcomp, h1, h2, h3, h4, h5, h6⟩ := compositePixel_spec s
  obtain ⟨c, s', hwb, w1, w2, w3, w4, w5⟩ :=
    renderWriteBack_spec s2 pp.1 pp.2 (h2 ▸ hc)
  refine ⟨c, s', ?_, w1.trans h1, w2.trans h2, w3.trans h3, w4.trans h4, ?_⟩
  · unfold ppuTickRender
    rw [hcomp]
    simp only [Option.bind_eq_bind, Option.some_bind]
    exact hwb
  · rw [w5, h5, h2, h1]
theorem updateVblank_spec (s : PpuState) :
    (updateVblank s).scanline = s.scanline ∧
    (updateVblank s).cycles = s.cycles ∧
    (updateVblank s).controller = s.controller ∧
    (updateVblank s).screenBuffer = s.screenBuffer ∧
    (updateVblank s).nmiLatch =
      (s.nmiLatch || (decide (s.scanline = 241) && decide (s.cycles = 1) &&
        getFlag s.controller generateVBlankNMIFlag)) := by
  unfold updateVblank
  split_ifs with h1 h2
  · refine ⟨rfl, rfl, rfl, rfl, ?_⟩
    simp [h1.1, h1.2, h2]
  · refine ⟨rfl, rfl, rfl, rfl, ?_⟩
    simp [h1.1, h1.2, h2]
  · refine ⟨rfl, rfl, rfl, rfl, ?_⟩
    have hfalse : (decide (s.scanline = 241) && decide (s.cycles = 1)) = false := by
      rcases Decidable.em (s.scanline = 241) with ha | ha
      · rcases Decidable.em (s.cycles = 1) with hb | hb
        · exact absurd ⟨ha, hb⟩ h1
        · simp [hb]
      · simp [ha]
    rw [hfalse]
    simp

theorem ppuTick_nonvisible (s : PpuState)
    (h1 : 240 ≤ s.scanline) (h2 : s.cycles + 1 ≤ 340) :
    ∃ color s', ppuTick 1 s = some s' ∧
      s'.scanline = s.scanline ∧
      s'.cycles = s.cycles + 1 ∧
      s'.controller = s.controller ∧
      s'.nmiLatch = (s.nmiLatch ||
        (decide (s.scanline = 241) && decide (s.cycles + 1 = 1) &&
         getFlag s.controller generateVBlankNMIFlag)) ∧
      s'.screenBuffer =
        s.screenBuffer.setPixel s.cycles (usizeOfInt s.scanline) color := by
  have hcyc : (s.cycles + 1) % usizeSize = s.cycles + 1 := by
    apply Nat.mod_eq_of_lt
    unfold usizeSize
    norm_num
    omega
  obtain ⟨u1, u2, u3, u4, u5⟩ :=
    updateVblank_spec { s with cycles := (s.cycles + 1) % usizeSize }
  have hc340 : (updateVblank { s with cycles := (s.cycles + 1) % usizeSize }).cycles ≤ 340 := by
    rw [u2]
    show (s.cycles + 1) % usizeSize ≤ 340
    rw [hcyc]
    omega
  obtain ⟨c, s', hrender, r1, r2, r3, r4, r5⟩ :=
    ppuTickRender_spec (updateVblank { s with cycles := (s.cycles + 1) % usizeSize }) hc340
  have hstep : ppuTick 1 s =
      ppuTickRender (updateVblank { s with cycles := (s.cycles + 1) % usizeSize }) := by
    unfold ppuTick
    split_ifs with hv
    · exfalso
      omega
    · simp only [Option.pure_def, Option.bind_eq_bind, Option.some_bind]
  refine ⟨c, s', hstep.trans hrender, ?_, ?_, ?_, ?_, ?_⟩
  · exact r1.trans u1
  · exact r2.trans (u2.trans hcyc)
  · exact r3.trans u3
  · rw [r4, u5]
    show (s.nmiLatch || (decide (s.scanline = 241) &&
        decide ((s.cycles + 1) % usizeSize = 1) &&
        getFlag s.controller generateVBlankNMIFlag)) =
      (s.nmiLatch || (decide (s.scanline = 241) && decide (s.cycles + 1 = 1) &&
        getFlag s.controller generateVBlankNMIFlag))
    rw [hcyc]
  · rw [r5, u4, u1, u2]
    show s.screenBuffer.setPixel ((s.cycles + 1) % usizeSize - 1)
        (usizeOfInt s.scanline) c =
      s.screenBuffer.setPixel s.cycles (usizeOfInt s.scanline) c
    rw [hcyc]
    norm_num
theorem ppuTickTimes_succ (n : Nat) (s : PpuState) :
    ppuTickTimes (n + 1) s = (ppuTick 1 s).bind (ppuTickTimes n) := rfl

/-! ## Claim C8 -/

/-- Claim C8: for each aliased entry, writing a byte to PPU address
`$3F10/$3F14/$3F18/$3F1C` stores it in the palette byte backing
`$3F00/$3F04/$3F08/$3F0C` respectively, and a subsequent read of the
corresponding `$3F0x` address returns the written byte. -/
theorem claim_C8_palette_alias (m : PpuMemoryMap) (v : Nat) :
    ((ppuMapWrite m 0x3F10 v).map fun m2 => m2.palette 0x00) = some v ∧
    ((ppuMapWrite m 0x3F10 v).bind fun m2 => ppuMapRead m2 0x3F00) = some v ∧
    ((ppuMapWrite m 0x3F14 v).map fun m2 => m2.palette 0x04) = some v ∧
    ((ppuMapWrite m 0x3F14 v).bind fun m2 => ppuMapRead m2 0x3F04) = some v ∧
    ((ppuMapWrite m 0x3F18 v).map fun m2 => m2.palette 0x08) = some v ∧
    ((ppuMapWrite m 0x3F18 v).bind fun m2 => ppuMapRead m2 0x3F08) = some v ∧
    ((ppuMapWrite m 0x3F1C v).map fun m2 => m2.palette 0x0C) = some v ∧
    ((ppuMapWrite m 0x3F1C v).bind fun m2 => ppuMapRead m2 0x3F0C) = some v := by
  refine ⟨?_, ?_, ?_, ?_, ?_, ?_, ?_, ?_⟩ <;>
    simp [ppuMapWrite, ppuMapRead,
      show (16128 &&& 31 : Nat) = 0 from by decide,
      show (16132 &&& 31 : Nat) = 4 from by decide,
      show (16136 &&& 31 : Nat) = 8 from by decide,
      show (16140 &&& 31 : Nat) = 12 from by decide]

/-! ## Claim C9 -/

/-- Claim C9: nametable accesses fold per the cartridge mirroring mode:
horizontal mirroring folds logical nametable 1 onto 0 and 3 onto 2,
vertical folds 2 onto 0 and 3 onto 1 (the universally quantified part);
and the claim's concrete scenarios: with horizontal mirroring, writing
`0xAB` through PPUDATA at `v = $2400` and then reading PPUDATA twice at
`v = $2000` yields `0xAB` on the second (buffered) read; likewise with
vertical mirroring and a write at `v = $2800`. -/
theorem claim_C9_nametable_mirroring :
    (∀ o : Nat, o < 0x400 →
      mirrorAddress .Horizontal (0x2400 + o) = some (0x2000 + o) ∧
      mirrorAddress .Horizontal (0x2C00 + o) = some (0x2800 + o) ∧
      mirrorAddress .Vertical (0x2800 + o) = some (0x2000 + o) ∧
      mirrorAddress .Vertical (0x2C00 + o) = some (0x2400 + o)) ∧
    ((writeData ppuStateC9h 0xAB).bind fun t =>
      (readData { t with vram := 0x2000 }).bind fun p =>
        (readData p.2).map fun q => q.1) = some 0xAB ∧
    ((writeData ppuStateC9v 0xAB).bind fun t =>
      (readData { t with vram := 0x2000 }).bind fun p =>
        (readData p.2).map fun q => q.1) = some 0xAB := by
  refine ⟨?_, ?_, ?_⟩
  · intro o ho
    have hiH1 : (9216 + o + 57344) % 65536 / 1024 = 1 := by omega
    have hvH1 : (9216 + o + 64512) % 65536 = 8192 + o := by omega
    have hiH3 : (11264 + o + 57344) % 65536 / 1024 = 3 := by omega
    have hvH3 : (11264 + o + 64512) % 65536 = 10240 + o := by omega
    have hiV2 : (10240 + o + 57344) % 65536 / 1024 = 2 := by omega
    have hvV2 : (10240 + o + 63488) % 65536 = 8192 + o := by omega
    have hvV3 : (11264 + o + 63488) % 65536 = 9216 + o := by omega
    refine ⟨?_, ?_, ?_, ?_⟩ <;>
      simp [mirrorAddress, hiH1, hvH1, hiH3, hvH3, hiV2, hvV2, hvV3]
  · set_option maxRecDepth 100000 in decide
  · set_option maxRecDepth 100000 in decide

/-- Claim C9 witness: the mirroring theorem applied at offset `0x123` and
the concrete horizontal write/read scenario. -/
theorem claim_C9_witness :
    mirrorAddress .Horizontal (0x2400 + 0x123) = some (0x2000 + 0x123) ∧
    ((writeData ppuStateC9h 0xAB).bind fun t =>
      (readData { t with vram := 0x2000 }).bind fun p =>
        (readData p.2).map fun q => q.1) = some 0xAB :=
  ⟨(claim_C9_nametable_mirroring.1 0x123 (by decide)).1,
    claim_C9_nametable_mirroring.2.1⟩

/-! ## Claim C4 -/

/-- Claim C4: the dot-257 evaluation walks OAM in order, copies the 4
bytes of each in-range sprite, marks sprite-zero-present and stops after
8 — but the claim's sprite-overflow part fails on the code: the copy
guard `sprite_count < 8` caps the count at 8, so the overflow test
`sprite_count > 8` never holds and the flag is never set.  Evaluated at a
state whose OAM holds nine sprites qualifying for scanline 10 (conjunct
3): after the tick into dot 257, the count is 8, sprite-zero-present is
marked, the copies are in secondary OAM — and sprite overflow is false
where the claim requires it set. -/
theorem claim_C4_sprite_overflow_never_set :
    ppuStateC4.scanline = 10 ∧ ppuStateC4.cycles + 1 = 257 ∧
    ((List.range 9).all fun j =>
      decide ((0 : Int) ≤ 10 - (ppuStateC4.memoryMap.oam (j * 4) : Int)) &&
      decide ((10 : Int) - (ppuStateC4.memoryMap.oam (j * 4) : Int) < 8)) = true ∧
    (ppuTick 1 ppuStateC4).map (fun t =>
      (t.screenState.spriteCount, getFlag t.status spriteOverflowFlag,
       t.screenState.spriteZeroOccured)) = some (8, false, true) ∧
    (ppuTick 1 ppuStateC4).map (fun t =>
      (t.internalOam 0, t.internalOam 28, t.internalOam 31)) = some (10, 10, 0) := by
  refine ⟨rfl, rfl, ?_, ?_, ?_⟩ <;> set_option maxRecDepth 100000 in decide

/-! ## Claim C10 -/

/-- Claim C10 counterexample: the claim states ticks at dots past column
256 (and on non-visible scanlines) leave the framebuffer unchanged.  At
dot 257 of visible scanline 0, `set_pixel(256, 0, color)` has flattened
index `0 * 256 + 256 = 256 < 61440`, so the bounds check passes and the
write lands at row 1 column 0: the framebuffer changes from 0 to 9.  On
the pre-render scanline, `scanline as usize` is `2^64 - 1` and at dot 257
the flattened index wraps to 0, overwriting pixel (0, 0). -/
theorem claim_C10_counterexample :
    ppuStateC10.scanline = 0 ∧ ppuStateC10.cycles + 1 = 257 ∧
    ppuStateC10.screenBuffer.pixels 256 = 0 ∧
    (ppuTick 1 ppuStateC10).map (fun t => t.screenBuffer.pixels 256) = some 9 ∧
    ppuStateC10pre.scanline = -1 ∧
    ppuStateC10pre.screenBuffer.pixels 0 = 0 ∧
    (ppuTick 1 ppuStateC10pre).map (fun t => t.screenBuffer.pixels 0) = some 9 := by
  refine ⟨rfl, rfl, rfl, ?_, rfl, rfl, ?_⟩ <;> set_option maxRecDepth 100000 in decide

/-- Claim C10 amended: `ScreenBuffer::set_pixel` bounds-checks only the
flattened index `(y * width + x) % 2^64` and discards writes at or beyond
the vector length, so no write ever touches an index outside the buffer;
and every tick on the idle/VBlank scanlines 240..=260 (at dots up to 340)
leaves the framebuffer unchanged.  (Dots past column 256 on visible
scanlines 0..=238 and dots 257+ of the pre-render line do write, into the
following row or wrapped to row 0, as the counterexample shows.) -/
theorem claim_C10_amended :
    (∀ (b : ScreenBuffer) (x y c i : Nat), b.size ≤ i →
      (b.setPixel x y c).pixels i = b.pixels i ∧ (b.setPixel x y c).size = b.size) ∧
    (∀ s : PpuState, 240 ≤ s.scanline → s.scanline ≤ 260 → s.cycles + 1 ≤ 340 →
      s.screenBuffer.width = 256 → s.screenBuffer.size = 61440 →
      ∃ s', ppuTick 1 s = some s' ∧ s'.screenBuffer = s.screenBuffer) := by
  constructor
  · intro b x y c i hi
    unfold ScreenBuffer.setPixel
    split_ifs with h
    · refine ⟨?_, rfl⟩
      dsimp only
      rw [if_neg (by omega)]
    · exact ⟨rfl, rfl⟩
  · intro s hs1 hs2 hc hw hsize
    obtain ⟨c, s', heq, _, _, _, _, hbuf⟩ := ppuTick_nonvisible s (by omega) hc
    refine ⟨s', heq, ?_⟩
    rw [hbuf]
    unfold ScreenBuffer.setPixel
    rw [if_neg]
    have hy : usizeOfInt s.scanline = s.scanline.toNat := by
      unfold usizeOfInt
      rw [Int.emod_eq_of_lt (by omega) (by unfold usizeSize; push_cast; omega)]
    rw [hy, hw, hsize]
    unfold usizeSize
    omega

/-- Claim C10 witness: the amended claim at a concrete VBlank-scanline
state: a tick at scanline 250, dot 101 leaves the framebuffer unchanged. -/
theorem claim_C10_witness :
    ∃ s', ppuTick 1 ppuStateC10w = some s' ∧
      s'.screenBuffer = ppuStateC10w.screenBuffer :=
  claim_C10_amended.2 ppuStateC10w (by decide) (by decide) (by decide) rfl rfl

/-! ## Claim C3 -/

/-- Claim C3 counterexample: the claim states the frame callback fires
once per VBlank rising edge independent of PPUCTRL's NMI-enable bit.
With NMI-enable clear, a `Clock::tick` that crosses scanline 241 dot 1
sets the VBlank status flag (the rising edge is crossed) but never sets
the bus NMI latch, and the callback-invoked flag is false. -/
theorem claim_C3_counterexample :
    getFlag ppuStateC3.status vblankFlag = false ∧
    getFlag ppuStateC3.controller generateVBlankNMIFlag = false ∧
    (clockTick 1 clockStateC3).map
      (fun r => (getFlag r.1.ppu.status vblankFlag, r.2)) = some (true, false) := by
  refine ⟨rfl, rfl, ?_⟩
  set_option maxRecDepth 100000 in decide

/-- Claim C3 amended: the frame callback is invoked after a `Clock::tick`
exactly when the bus NMI latch rose from unset to set during that call;
crossing the VBlank rising edge (scanline 241 dot 1) invokes it iff the
PPUCTRL NMI-enable bit is set and the latch was previously clear. -/
theorem claim_C3_amended :
    (∀ (c : ClockState) (r : ClockState × Bool), clockTick 1 c = some r →
      r.2 = (!hasInterrupt c.ppu && hasInterrupt r.1.ppu)) ∧
    (∀ c : ClockState, c.ppu.scanline = 241 → c.ppu.cycles = 0 →
      c.ppu.nmiLatch = false →
      getFlag c.ppu.controller generateVBlankNMIFlag = true →
      ∃ r : ClockState, clockTick 1 c = some (r, true)) := by
  constructor
  · intro c r h
    unfold clockTick at h
    cases h3 : ppuTickTimes (1 * 3) c.ppu with
    | none => rw [h3] at h; simp at h
    | some p =>
      rw [h3] at h
      simp only [Option.bind_eq_bind, Option.some_bind, Option.pure_def,
        Option.some.injEq] at h
      rw [← h]
  · intro c hsc hcy hl hflag
    obtain ⟨c1, s1, ht1, a1, a2, a3, a4, a5⟩ :=
      ppuTick_nonvisible c.ppu (by omega) (by omega)
    have hl1 : s1.nmiLatch = true := by
      rw [a4, hl, hsc, hcy]
      simp [hflag]
    obtain ⟨c2, s2, ht2, b1, b2, b3, b4, b5⟩ :=
      ppuTick_nonvisible s1 (by rw [a1, hsc]; norm_num) (by rw [a2, hcy]; norm_num)
    have hl2 : s2.nmiLatch = true := by rw [b4, hl1]; simp
    obtain ⟨c3v, s3, ht3, d1, d2, d3, d4, d5⟩ :=
      ppuTick_nonvisible s2 (by rw [b1, a1, hsc]; norm_num)
        (by rw [b2, a2, hcy]; norm_num)
    have hl3 : s3.nmiLatch = true := by rw [d4, hl2]; simp
    have htt : ppuTickTimes (1 * 3) c.ppu = some s3 := by
      show ppuTickTimes 3 c.ppu = some s3
      rw [show (3 : Nat) = 2 + 1 from rfl, ppuTickTimes_succ, ht1, Option.some_bind,
        show (2 : Nat) = 1 + 1 from rfl, ppuTickTimes_succ, ht2, Option.some_bind,
        show (1 : Nat) = 0 + 1 from rfl, ppuTickTimes_succ, ht3, Option.some_bind]
      rfl
    refine ⟨{ ppu := s3, cycles := (c.cycles + 1) % usizeSize }, ?_⟩
    unfold clockTick
    rw [htt]
    simp only [Option.bind_eq_bind, Option.some_bind, Option.pure_def,
      Option.some.injEq]
    simp [hasInterrupt, hl, hl3]

/-- Claim C3 witness: the amended claim at the concrete crossing state
with NMI-enable set: the callback is invoked. -/
theorem claim_C3_witness :
    ∃ r : ClockState, clockTick 1 clockStateC3en = some (r, true) :=
  claim_C3_amended.2 clockStateC3en rfl rfl rfl (by decide)

end Nestify
